import Mathlib

/-!
# Client-hunter: verification of the multi-source scraping core

Shallow embedding of the aggregation core of the Client-hunter repository:
`src/utils/scraping_utils.py` (validator, geocoding fallback),
`src/scraper/real_business_scraper.py` (normalizer, cross-source deduplicator,
the RealBusinessScraper orchestrator), `src/scraper/business_scraper.py`
(the BusinessScraper orchestrator) and `src/database/db_manager.py`
(the SQLite-backed persistence store).

Modelling conventions:
* Python `dict` records are modelled by the structure `PyBusiness`; a field of
  type `Option (Option String)` distinguishes a missing key (`none`), a key
  present with value `None` (`some none`) and a key present with a string
  (`some (some s)`).  `dict.get(k, d)` is `Option.getD`.
* Methods that can raise (`None.strip()` is an `AttributeError`) return
  `Except PyErr _`; a Python `try/except` around a block is a `match` on the
  `Except` value.
* `str.strip` / `str.lower` and the regex classes `\d` / `\s` are modelled on
  the ASCII range (all string literals appearing in the program are ASCII).
* Floats only ever store and compare static literals or values handed over by
  the geocoding service, so coordinates are modelled exactly as rationals.
* Timestamp fields (`scraped_at`, `validated_at`, `started_at`,
  `completed_at`) are wall-clock strings no claim depends on; they are
  omitted from the record model.
* External collaborators (source adapters, the geocoding HTTP service, the
  filesystem availability of the SQLite store) are parameters of the
  functions that consume them, mirroring the constructor injection of
  `utils` and `db_manager` in the Python classes.
-/

namespace ClientHunter

/-! ## Python string primitives -/

/-- ASCII whitespace, the characters `str.strip` removes. -/
def pyIsSpace (c : Char) : Bool :=
  c = ' ' || c = '\t' || c = '\n' || c = '\r' || c = '\x0b' || c = '\x0c'

/-- `str.strip()` on a character list: drop whitespace at both ends. -/
def pyStripList (l : List Char) : List Char :=
  ((l.dropWhile pyIsSpace).reverse.dropWhile pyIsSpace).reverse

/-- Python `s.strip()`. -/
def pyStrip (s : String) : String := ⟨pyStripList s.data⟩

/-- Python `c.lower()` for one character (ASCII). -/
def pyLowerChar (c : Char) : Char :=
  if 'A' ≤ c ∧ c ≤ 'Z' then Char.ofNat (c.toNat + 32) else c

/-- Python `s.lower()`. -/
def pyLower (s : String) : String := ⟨s.data.map pyLowerChar⟩

/-- Python slicing `s[:n]`. -/
def pyTake (n : Nat) (s : String) : String := ⟨s.data.take n⟩

/-- Is `pre` a prefix of `l`? -/
def isPrefixB : List Char → List Char → Bool
  | [], _ => true
  | _ :: _, [] => false
  | a :: as, b :: bs => a = b && isPrefixB as bs

/-- Does `needle` occur inside `hay`?  (Python `needle in hay`.) -/
def listHasInfix : List Char → List Char → Bool
  | hay, needle =>
    match hay with
    | [] => needle.isEmpty
    | _ :: rest => isPrefixB needle hay || listHasInfix rest needle

/-- Python substring membership `needle in hay`. -/
def pyInStr (needle hay : String) : Bool := listHasInfix hay.data needle.data

/-- Does the string contain the character `c`? -/
def strHasChar (s : String) (c : Char) : Bool := s.data.contains c

/-! ## Python values and records -/

/-- The only exception kind the embedded code paths can raise:
calling a `str` method on `None`. -/
inductive PyErr where
  | attributeError
deriving Repr, DecidableEq

/-- A string-valued dict slot: missing key / `None` / a string. -/
abbrev PyField := Option (Option String)

/-- A numeric dict slot: missing key / `None` / a float (modelled exactly). -/
abbrev PyNumField := Option (Option ℚ)

/-- A business dict as the scrapers pass it around.  Timestamp fields are
omitted (see the module docstring). -/
structure PyBusiness where
  business_name : PyField := none
  contact : PyField := none
  address : PyField := none
  website : PyField := none
  category : PyField := none
  location : PyField := none
  latitude : PyNumField := none
  longitude : PyNumField := none
  source : PyField := none
  data_type : PyField := none
deriving Repr, DecidableEq

/-- `business.get(k, '')`: a missing key turns into `''`; an explicit `None`
stays `None`. -/
def pyGetStr (v : PyField) : Option String := v.getD (some "")

/-- `business.get(k)` (default `None`). -/
def pyGetOpt (v : PyField) : Option String := v.getD none

/-- Python truthiness of a string-or-None value. -/
def strTruthy : Option String → Bool
  | none => false
  | some s => !s.isEmpty

/-- `v.strip()` where `v` came out of `.get(k, '')`; raises on `None`. -/
def pyStripE : Option String → Except PyErr String
  | none => .error .attributeError
  | some s => .ok (pyStrip s)

/-- `v.lower().strip()` where `v` came out of `.get(k, '')`; raises on
`None`. -/
def pyLowerStripE : Option String → Except PyErr String
  | none => .error .attributeError
  | some s => .ok (pyStrip (pyLower s))

/-! ## `ScrapingUtils.is_valid_business_data`
(`src/utils/scraping_utils.py`, lines 256-267).

The Python loops over `['business_name', 'location']` and then lazily over
`['contact', 'website', 'address']` (`any` short-circuits); the unrolled
sequence below evaluates the same `.get(field, '').strip()` calls in the
same order, stopping at the first decision point. -/

def is_valid_business_data (b : PyBusiness) : Except PyErr Bool :=
  match pyGetStr b.business_name with
  | none => .error .attributeError
  | some sn =>
    if (pyStrip sn).isEmpty then .ok false
    else
      match pyGetStr b.location with
      | none => .error .attributeError
      | some sl =>
        if (pyStrip sl).isEmpty then .ok false
        else
          match pyGetStr b.contact with
          | none => .error .attributeError
          | some sc =>
            if !(pyStrip sc).isEmpty then .ok true
            else
              match pyGetStr b.website with
              | none => .error .attributeError
              | some sw =>
                if !(pyStrip sw).isEmpty then .ok true
                else
                  match pyGetStr b.address with
                  | none => .error .attributeError
                  | some sa => .ok !(pyStrip sa).isEmpty

/-! ## Phone-number regex of `_validate_and_clean_businesses`
`re.search(r'(\+91[-\s]?)?[6-9]\d{9}', contact)`
(`src/scraper/real_business_scraper.py`, line 208).
`\d` and `\s` are modelled on ASCII. -/

/-- The regex character class `\s`. -/
def reIsSpace (c : Char) : Bool :=
  c = ' ' || c = '\t' || c = '\n' || c = '\r' || c = '\x0c' || c = '\x0b'

/-- `[6-9]\d{9}` anchored at the start of `l`. -/
def phoneCore (l : List Char) : Option (List Char) :=
  match l with
  | c :: rest =>
    let digits := rest.take 9
    if ('6' ≤ c ∧ c ≤ '9') ∧ digits.length = 9 ∧ digits.all (fun d => '0' ≤ d && d ≤ '9')
    then some (c :: digits) else none
  | [] => none

/-- The full pattern anchored at the start of `l`, with the greedy optional
group `(\+91[-\s]?)?` tried first (and its optional separator tried first),
exactly as the backtracking engine does. -/
def phoneAt (l : List Char) : Option (List Char) :=
  (match l with
   | '+' :: '9' :: '1' :: rest =>
     (match rest with
      | c :: rest2 =>
        if c = '-' || reIsSpace c then
          (phoneCore rest2).map (fun m => '+' :: '9' :: '1' :: c :: m)
        else none
      | [] => none)
     <|> (phoneCore rest).map (fun m => '+' :: '9' :: '1' :: m)
   | _ => none)
  <|> phoneCore l

/-- `re.search`: the leftmost position where the pattern matches. -/
def phoneSearchList : List Char → Option (List Char)
  | [] => none
  | l@(_ :: rest) => phoneAt l <|> phoneSearchList rest

/-- `re.search(r'(\+91[-\s]?)?[6-9]\d{9}', s)`, returning `.group(0)`. -/
def phoneSearch (s : String) : Option String :=
  (phoneSearchList s.data).map (fun l => ⟨l⟩)

/-- `any(marker in s for marker in markers)`. -/
def containsAnyMarker (markers : List String) (s : String) : Bool :=
  markers.any (fun m => pyInStr m s)

/-- Markers scrubbed from `contact` fields. -/
def contactMarkers : List String := ["demo", "fake", "test", "sample"]

/-- Markers scrubbed from `website` fields. -/
def websiteMarkers : List String := ["demo", "fake", "test", "sample", "localhost"]

/-! ## `RealBusinessScraper._validate_and_clean_businesses`
(`src/scraper/real_business_scraper.py`, lines 185-245). -/

/-- Python `s.split(',')[-1]`: the part after the last comma (`''.split(',')`
is `['']`, so the result is total). -/
def pySplitCommaLast (s : String) : String :=
  (s.splitOn ",").getLastD ""

/-- The final lines of the per-record loop:
`if self.utils.is_valid_business_data(business):
validated_businesses.append(business)` — an exception propagates, a `True`
appends, a `False` silently drops. -/
def validateFinish (b : PyBusiness) : Except PyErr (Option PyBusiness) :=
  match is_valid_business_data b with
  | .error e => .error e
  | .ok ok => if ok then .ok (some b) else .ok none

/-- The contact-cleaning block (lines 200-212): blank demo/fake markers,
else keep the regex match or the stripped contact. -/
def cleanContactStep (rc : String) (b : PyBusiness) : PyBusiness :=
  let c := pyStrip rc
  if !c.isEmpty then
    if containsAnyMarker contactMarkers (pyLower c) then
      { b with contact := some (some "") }
    else
      match phoneSearch c with
      | some m => { b with contact := some (some m) }
      | none => { b with contact := some (some c) }
  else b

/-- The address-cleaning block (lines 214-217): store the stripped address
when truthy. -/
def cleanAddressStep (ra : String) (b : PyBusiness) : PyBusiness :=
  let a := pyStrip ra
  if !a.isEmpty then { b with address := some (some a) } else b

/-- The website-cleaning block (lines 219-226): blank demo/fake/localhost
markers, else keep the stripped website. -/
def cleanWebsiteStep (ws : String) (b : PyBusiness) : PyBusiness :=
  let w := pyStrip ws
  if !w.isEmpty then
    if containsAnyMarker websiteMarkers (pyLower w) then
      { b with website := some (some "") }
    else { b with website := some (some w) }
  else b

/-- The location-backfill block (lines 228-230):
`if not business.get('location'): business['location'] =
business.get('address', '').split(',')[-1].strip()`. -/
def fillLocationStep (b : PyBusiness) : Except PyErr PyBusiness :=
  if !strTruthy (pyGetOpt b.location) then
    match pyGetStr b.address with
    | none => .error .attributeError
    | some av =>
      .ok { b with location := some (some (pyStrip (pySplitCommaLast av))) }
  else .ok b

/-- The tail of the loop body from the location backfill on:
stamp `data_type = 'REAL_DATA'` (`validated_at` omitted) and run the final
validation. -/
def cleanAfterWebsite (b4 : PyBusiness) : Except PyErr (Option PyBusiness) :=
  match fillLocationStep b4 with
  | .error e => .error e
  | .ok b5 => validateFinish { b5 with data_type := some (some "REAL_DATA") }

/-- The tail from the website block on:
`website = business.get('website', '').strip()` raises on `None`. -/
def cleanAfterAddress (b3 : PyBusiness) : Except PyErr (Option PyBusiness) :=
  match pyGetStr b3.website with
  | none => .error .attributeError
  | some ws => cleanAfterWebsite (cleanWebsiteStep ws b3)

/-- The tail from the address block on:
`address = business.get('address', '').strip()` raises on `None`. -/
def cleanAfterContact (b2 : PyBusiness) : Except PyErr (Option PyBusiness) :=
  match pyGetStr b2.address with
  | none => .error .attributeError
  | some ra => cleanAfterAddress (cleanAddressStep ra b2)

/-- The tail from the contact block on:
`contact = business.get('contact', '').strip()` raises on `None`. -/
def cleanAfterName (b1 : PyBusiness) : Except PyErr (Option PyBusiness) :=
  match pyGetStr b1.contact with
  | none => .error .attributeError
  | some rc => cleanAfterContact (cleanContactStep rc b1)

/-- The body of the per-record `try` block: returns `none` for a `continue`
(record silently dropped), `some b` for an appended record, and `.error` when
a `str` method is called on `None` (the surrounding `except` also drops the
record).
`business_name = business.get('business_name', '')` followed by
`if not business_name or not business_name.strip(): continue`, then the
name is stored stripped and the per-field blocks run in program order. -/
def cleanBusiness (b : PyBusiness) : Except PyErr (Option PyBusiness) :=
  match pyGetStr b.business_name with
  | none => .ok none             -- None is falsy: silently skipped
  | some s =>
    if s.isEmpty then .ok none
    else if (pyStrip s).isEmpty then .ok none
    else cleanAfterName { b with business_name := some (some (pyStrip s)) }

/-- The whole normalizer: dropped records (early `continue`, failed final
validation, or an exception caught by the per-record `except`) simply do not
appear in the output list. -/
def validate_and_clean_businesses (bs : List PyBusiness) : List PyBusiness :=
  bs.filterMap (fun b =>
    match cleanBusiness b with
    | .ok (some v) => some v
    | _ => none)

/-! ## `RealBusinessScraper._remove_cross_source_duplicates`
(`src/scraper/real_business_scraper.py`, lines 269-290). -/

/-- The dedupe key and the normalized name of one record:
`name = business.get('business_name', '').lower().strip()` (and likewise for
`location` and `address`), `unique_key = f"{name}|{location}|{address[:50]}"`.
Raises if one of the three values is an explicit `None`. -/
def dedupeKeyE (b : PyBusiness) : Except PyErr (String × String) := do
  let n ← pyLowerStripE (pyGetStr b.business_name)
  let l ← pyLowerStripE (pyGetStr b.location)
  let a ← pyLowerStripE (pyGetStr b.address)
  return (n ++ "|" ++ l ++ "|" ++ pyTake 50 a, n)

/-- The loop of `_remove_cross_source_duplicates`: `seen` is the
`seen_businesses` set, `acc` the `unique_businesses` list built so far.
A record is kept iff its key is unseen and its normalized name non-empty. -/
def rcsdAux : List PyBusiness → List String → List PyBusiness →
    Except PyErr (List PyBusiness)
  | [], _, acc => .ok acc
  | b :: rest, seen, acc => do
    let kn ← dedupeKeyE b
    if !seen.contains kn.1 && !kn.2.isEmpty then
      rcsdAux rest (kn.1 :: seen) (acc ++ [b])
    else
      rcsdAux rest seen acc

/-- `_remove_cross_source_duplicates(businesses)`. -/
def remove_cross_source_duplicates (bs : List PyBusiness) :
    Except PyErr (List PyBusiness) :=
  rcsdAux bs [] []

/-! ## Geocoding (`src/utils/scraping_utils.py`, lines 181-254). -/

/-- A latitude/longitude pair (static literals and service answers only are
ever stored, so exact rationals model the Python floats faithfully). -/
structure Coords where
  latitude : ℚ
  longitude : ℚ
deriving Repr, DecidableEq

/-- The outcome of one `requests.get` attempt against Nominatim, as the
control flow of `geocode_address` distinguishes them:
a 200 response with at least one result, a 200 response with an empty result
list, a non-200 status, `requests.exceptions.Timeout`, and any other
exception (connection refused, bad JSON, ...). -/
inductive GeoResponse where
  | success (latitude longitude : ℚ)
  | emptyData
  | httpError
  | timeout
  | netError
deriving Repr, DecidableEq

/-- `ScrapingUtils._get_default_coordinates`: the static city table, in the
dict's insertion order (Python dicts iterate in insertion order). -/
def city_coordinates : List (String × Coords) :=
  [("delhi", ⟨28.6139, 77.2090⟩),
   ("mumbai", ⟨19.0760, 72.8777⟩),
   ("bangalore", ⟨12.9716, 77.5946⟩),
   ("chennai", ⟨13.0827, 80.2707⟩),
   ("kolkata", ⟨22.5726, 88.3639⟩),
   ("hyderabad", ⟨17.3850, 78.4867⟩),
   ("pune", ⟨18.5204, 73.8567⟩),
   ("ahmedabad", ⟨23.0225, 72.5714⟩),
   ("jaipur", ⟨26.9124, 75.7873⟩),
   ("agra", ⟨27.1767, 78.0081⟩)]

/-- `ScrapingUtils._get_default_coordinates(address)`: first city of the
table occurring in the lower-cased address, else the Delhi default. -/
def get_default_coordinates (address : String) : Coords :=
  match city_coordinates.find? (fun p => pyInStr p.1 (pyLower address)) with
  | some p => p.2
  | none => ⟨28.6139, 77.2090⟩

/-- `ScrapingUtils.geocode_address(address)` given the behavior of the remote
service on attempt 0 and attempt 1.  Control flow of the Python:
a success returns the parsed pair; a 200-with-no-data or a non-200 status
`break`s out and returns `None`; a first-attempt timeout or other exception
moves on to the second attempt; a second-attempt timeout or other exception
returns the static fallback. -/
def geocode_address (address : String) (resp : Nat → GeoResponse) :
    Option Coords :=
  match resp 0 with
  | .success la lo => some ⟨la, lo⟩
  | .emptyData => none
  | .httpError => none
  | _ =>
    match resp 1 with
    | .success la lo => some ⟨la, lo⟩
    | .emptyData => none
    | .httpError => none
    | _ => some (get_default_coordinates address)

/-- The service is unreachable on one attempt: the request raises instead of
answering. -/
def unreachableOnce (r : GeoResponse) : Bool :=
  r = .timeout || r = .netError

/-- The geocoding service is unreachable for the whole call (both attempts
raise). -/
def unreachable (resp : Nat → GeoResponse) : Bool :=
  unreachableOnce (resp 0) && unreachableOnce (resp 1)

/-! ## `DatabaseManager` (`src/database/db_manager.py`).

The `businesses` table is created with
`UNIQUE(business_name, address, location)` and `business_name`/`location`
`NOT NULL` (lines 27-42); rows are inserted with `INSERT OR IGNORE`
(lines 114-119).  SQLite semantics modelled: a row is in conflict with an
existing one only when all three key columns are non-NULL and equal (two
NULLs are distinct for a UNIQUE constraint); `OR IGNORE` silently skips a
row violating UNIQUE or NOT NULL; `cursor.rowcount` after `executemany`
counts only the rows actually inserted.  Every `DatabaseManager` method
wraps its body in `try/except`; an unavailable store (the `avail` flag,
standing for `sqlite3.connect` raising) therefore makes each method return
its fallback value with the state unchanged. -/

/-- One row of the `businesses` table; `none` is SQL NULL. -/
structure DbRow where
  business_name : Option String
  contact : Option String
  address : Option String
  website : Option String
  category : Option String
  location : Option String
  latitude : Option ℚ
  longitude : Option ℚ
  source : Option String
deriving Repr, DecidableEq

/-- The tuple built for one business in `insert_businesses_batch`
(lines 99-112): `business.get(field, '')` for the string columns,
`business.get('latitude')` / `business.get('longitude')` for the floats. -/
def toRow (b : PyBusiness) : DbRow where
  business_name := pyGetStr b.business_name
  contact := pyGetStr b.contact
  address := pyGetStr b.address
  website := pyGetStr b.website
  category := pyGetStr b.category
  location := pyGetStr b.location
  latitude := b.latitude.getD none
  longitude := b.longitude.getD none
  source := pyGetStr b.source

/-- Does the new row hit the `UNIQUE(business_name, address, location)`
constraint against an existing row?  NULL never equals NULL in SQL. -/
def rowConflict (old new : DbRow) : Bool :=
  old.business_name = new.business_name && old.address = new.address &&
  old.location = new.location &&
  new.business_name.isSome && new.address.isSome && new.location.isSome

/-- `INSERT OR IGNORE` of one row: a NOT NULL or UNIQUE violation skips the
row, otherwise it is appended and counted. -/
def insertRowIgnore (rows : List DbRow) (r : DbRow) : List DbRow × Nat :=
  if r.business_name = none || r.location = none then (rows, 0)
  else if rows.any (fun old => rowConflict old r) then (rows, 0)
  else (rows ++ [r], 1)

/-- One `scraping_sessions` row (timestamps omitted). -/
structure DbSession where
  location : String
  total_scraped : Nat
  status : String
deriving Repr, DecidableEq

/-- The whole store. -/
structure DbState where
  rows : List DbRow
  sessions : List DbSession
deriving Repr, DecidableEq

/-- `DatabaseManager.insert_businesses_batch` (lines 93-126): one
`executemany` of `INSERT OR IGNORE`, returning `cursor.rowcount`; the
`except` branch returns `0` (and the transaction is rolled back, leaving the
table unchanged). -/
def insert_businesses_batch (avail : Bool) (rows : List DbRow)
    (bs : List PyBusiness) : List DbRow × Nat :=
  if avail then
    bs.foldl
      (fun st b =>
        let r := insertRowIgnore st.1 (toRow b)
        (r.1, st.2 + r.2))
      (rows, 0)
  else (rows, 0)

/-- `DatabaseManager.create_scraping_session` (lines 228-244): inserts a row
with status `'running'` and returns `cursor.lastrowid`; the `except` branch
returns `-1`. -/
def create_scraping_session (avail : Bool) (sessions : List DbSession)
    (location : String) : List DbSession × Int :=
  if avail then
    (sessions ++ [⟨location, 0, "running"⟩], (sessions.length : Int) + 1)
  else (sessions, -1)

/-- `DatabaseManager.update_scraping_session` (lines 246-261): updates the
row whose id matches; the `except` branch silently does nothing. -/
def update_scraping_session (avail : Bool) (sessions : List DbSession)
    (session_id : Int) (total_scraped : Nat) (status : String) :
    List DbSession :=
  if avail then
    (sessions.enum.map (fun p =>
      if ((p.1 : Int) + 1) = session_id then
        { p.2 with total_scraped := total_scraped, status := status }
      else p.2))
  else sessions

/-! ## The orchestrators

`BusinessScraper.scrape_location` (`src/scraper/business_scraper.py`,
lines 39-136) and `RealBusinessScraper.scrape_location`
(`src/scraper/real_business_scraper.py`, lines 39-152).

The source-adapter set is abstracted by
`env : String → Except PyErr (List PyBusiness)`: the outcome of the
`search_businesses` call(s) of the adapter registered under a source name
(`.error` models the adapter raising).  The geocoding collaborator of the
injected `utils` object is likewise a parameter.  Inter-source sleeps have
no observable effect and are dropped; the `results` dict keys no claim reads
(`started_at`, `completed_at`, the static `'data_type': 'REAL_DATA'` tag of
the real scraper) are omitted. -/

/-- Python dict assignment `d[k] = v` for the string-keyed
`businesses_by_source` dict, preserving insertion order. -/
def dictSet (d : List (String × Nat)) (k : String) (v : Nat) :
    List (String × Nat) :=
  if d.any (fun p => p.1 = k) then
    d.map (fun p => if p.1 = k then (k, v) else p)
  else d ++ [(k, v)]

/-- Dict lookup `d.get(k)`. -/
def dictGet (d : List (String × Nat)) (k : String) : Option Nat :=
  (d.find? (fun p => p.1 = k)).map Prod.snd

/-- `str(e)` for the run's error strings; claims only ever inspect the
error list for emptiness. -/
def pyErrText : PyErr → String
  | .attributeError => "AttributeError"

/-- The keys of `BusinessScraper.scrapers` (`init_scrapers`, lines 24-37). -/
def bsKnownSources : List String :=
  ["justdial", "indiamart", "yellowpages", "googlemaps", "playwright",
   "it_clients"]

/-- The keys of `RealBusinessScraper.scrapers` (lines 25-37). -/
def realKnownSources : List String :=
  ["justdial_real", "google_maps_api", "local_directories", "playwright",
   "it_clients"]

/-- The stamping loop at the end of `BusinessScraper._scrape_from_source`
(lines 161-166): `business['location'] = location`, and
`business['category'] = category` when `category` is truthy
(`scraped_at` omitted). -/
def stampBusiness (location category : String) (b : PyBusiness) :
    PyBusiness :=
  let b := { b with location := some (some location) }
  if !category.isEmpty then { b with category := some (some category) }
  else b

/-- `BusinessScraper._scrape_from_source` (lines 138-172): dispatches to the
adapter, stamps location/category, and catches any exception by returning
the empty list. -/
def scrape_from_source (env : String → Except PyErr (List PyBusiness))
    (location category source : String) : List PyBusiness :=
  match env source with
  | .error _ => []
  | .ok bs => bs.map (stampBusiness location category)

/-- The body of the loop of `BusinessScraper._add_geocoding`
(lines 196-212): geocode only businesses with a truthy `address`; a `None`
result, or an exception from the geocoder, leaves the record unchanged. -/
def add_geocoding_one (geo : String → Except PyErr (Option Coords))
    (b : PyBusiness) : PyBusiness :=
  match pyGetOpt b.address with
  | some addr =>
    if addr.isEmpty then b
    else
      match geo addr with
      | .ok (some c) =>
        { b with latitude := some (some c.latitude),
                 longitude := some (some c.longitude) }
      | _ => b
  | none => b

/-- `BusinessScraper._add_geocoding(businesses)`. -/
def add_geocoding (geo : String → Except PyErr (Option Coords))
    (bs : List PyBusiness) : List PyBusiness :=
  bs.map (add_geocoding_one geo)

/-- The mutable state of the per-source loop of `scrape_location`: the
`results` entries the loop writes, the `all_businesses` accumulator, and
the store's `businesses` table. -/
structure LoopState where
  errors : List String
  by_source : List (String × Nat)
  sources_scraped : List String
  all : List PyBusiness
  rows : List DbRow
deriving Repr, DecidableEq

/-- One iteration of the source loop of `BusinessScraper.scrape_location`
(lines 78-114).  `_scrape_from_source` swallows adapter exceptions, the
geocoder and the batch insert swallow theirs, so the `except` branch of
the loop is unreachable and `errors` only ever records unknown source
names. -/
def bsStep (env : String → Except PyErr (List PyBusiness))
    (geo : String → Except PyErr (Option Coords)) (avail : Bool)
    (location category : String) (st : LoopState) (source : String) :
    LoopState :=
  if !bsKnownSources.contains source then
    { st with errors := st.errors ++ ["Unknown scraper source: " ++ source] }
  else
    let sb := scrape_from_source env location category source
    if !sb.isEmpty then
      let gb := add_geocoding geo sb
      let ins := insert_businesses_batch avail st.rows gb
      { st with all := st.all ++ gb,
                by_source := dictSet st.by_source source gb.length,
                sources_scraped := st.sources_scraped ++ [source],
                rows := ins.1 }
    else
      { st with by_source := dictSet st.by_source source 0 }

/-- The run summary dict (`results` in the Python; timestamp keys omitted,
`total_results`/`sources_used` are the compatibility aliases of
lines 121-123). -/
structure RunResults where
  location : String
  category : String
  total_businesses : Nat
  sources_scraped : List String
  businesses_by_source : List (String × Nat)
  errors : List String
  session_id : Int
  total_results : Nat
  businesses : List PyBusiness
  sources_used : List String
deriving Repr, DecidableEq

/-- `BusinessScraper.scrape_location(location, category, sources,
max_results_per_source)`.  Total: no statement of the method can raise past
its own handlers (`_scrape_from_source` returns `[]` on adapter failure and
every `DatabaseManager` method catches internally), so the method always
returns a summary together with the updated store. -/
def business_scrape_location (env : String → Except PyErr (List PyBusiness))
    (geo : String → Except PyErr (Option Coords)) (avail : Bool)
    (db : DbState) (location category : String) (sources : List String) :
    RunResults × DbState :=
  let cs := create_scraping_session avail db.sessions location
  let st := sources.foldl (bsStep env geo avail location category)
    ⟨[], [], [], [], db.rows⟩
  let status := if st.errors.isEmpty then "completed"
    else "completed_with_errors"
  -- `if self.session_id:` — integer truthiness (note `-1` is truthy)
  let sessions2 := if cs.2 ≠ 0 then
    update_scraping_session avail cs.1 cs.2 st.all.length status
  else cs.1
  (⟨location, category, st.all.length, st.sources_scraped, st.by_source,
    st.errors, cs.2, st.all.length, st.all, st.sources_scraped⟩,
   ⟨st.rows, sessions2⟩)

/-- Python float truthiness of a latitude/longitude slot (`0.0` and `None`
are falsy). -/
def numTruthy (v : PyNumField) : Bool :=
  match v.getD none with
  | none => false
  | some q => q ≠ 0

/-- The loop body of `RealBusinessScraper._add_geocoding_if_needed`
(lines 247-267): geocode only when a coordinate is missing (falsy), using
`business.get('address', '') or business.get('location', '')`; exceptions
from the geocoding collaborator are caught and leave the record
unchanged. -/
def geocode_if_needed_one (gc : String → Except PyErr (Option Coords))
    (b : PyBusiness) : PyBusiness :=
  if !numTruthy b.latitude || !numTruthy b.longitude then
    let av := pyGetStr b.address
    let addr := if strTruthy av then av else pyGetStr b.location
    match addr with
    | some s =>
      if s.isEmpty then b
      else
        match gc s with
        | .ok (some c) =>
          { b with latitude := some (some c.latitude),
                   longitude := some (some c.longitude) }
        | _ => b
    | none => b
  else b

/-- `RealBusinessScraper._add_geocoding_if_needed(businesses)`. -/
def add_geocoding_if_needed (gc : String → Except PyErr (Option Coords))
    (bs : List PyBusiness) : List PyBusiness :=
  bs.map (geocode_if_needed_one gc)

/-- One iteration of the source loop of
`RealBusinessScraper.scrape_location` (lines 84-127).  Unlike the plain
scraper, `RealBusinessScraper._scrape_from_source` re-raises adapter
exceptions (line 181), so they reach the loop's `except` and are recorded
in `errors` with a zero count. -/
def realStep (env : String → Except PyErr (List PyBusiness))
    (gc : String → Except PyErr (Option Coords)) (avail : Bool)
    (st : LoopState) (source : String) : LoopState :=
  if !realKnownSources.contains source then
    { st with errors := st.errors ++ ["Unknown scraper source: " ++ source] }
  else
    match env source with
    | .error e =>
      { st with
          errors := st.errors ++
            ["Error scraping from " ++ source ++ ": " ++ pyErrText e],
          by_source := dictSet st.by_source source 0 }
    | .ok sb =>
      if !sb.isEmpty then
        let vb := validate_and_clean_businesses sb
        if !vb.isEmpty then
          let gb := add_geocoding_if_needed gc vb
          let ins := insert_businesses_batch avail st.rows gb
          { st with all := st.all ++ gb,
                    by_source := dictSet st.by_source source gb.length,
                    sources_scraped := st.sources_scraped ++ [source],
                    rows := ins.1 }
        else { st with by_source := dictSet st.by_source source 0 }
      else { st with by_source := dictSet st.by_source source 0 }

/-- `RealBusinessScraper.scrape_location`.  The global dedupe at line 130
runs outside the per-source `try`, so an exception it raises (a record with
a `None` name/location/address reaching it) would propagate to the caller;
the return type records that possibility. -/
def real_scrape_location (env : String → Except PyErr (List PyBusiness))
    (gc : String → Except PyErr (Option Coords)) (avail : Bool)
    (db : DbState) (location category : String) (sources : List String) :
    Except PyErr (RunResults × DbState) :=
  match remove_cross_source_duplicates
      (sources.foldl (realStep env gc avail) ⟨[], [], [], [], db.rows⟩).all with
  | .error e => .error e
  | .ok unique =>
    .ok
      (⟨location, category, unique.length,
        (sources.foldl (realStep env gc avail)
          ⟨[], [], [], [], db.rows⟩).sources_scraped,
        (sources.foldl (realStep env gc avail)
          ⟨[], [], [], [], db.rows⟩).by_source,
        (sources.foldl (realStep env gc avail)
          ⟨[], [], [], [], db.rows⟩).errors,
        (create_scraping_session avail db.sessions location).2,
        unique.length, unique,
        (sources.foldl (realStep env gc avail)
          ⟨[], [], [], [], db.rows⟩).sources_scraped⟩,
       ⟨(sources.foldl (realStep env gc avail)
          ⟨[], [], [], [], db.rows⟩).rows,
        if (create_scraping_session avail db.sessions location).2 ≠ 0 then
          update_scraping_session avail
            (create_scraping_session avail db.sessions location).1
            (create_scraping_session avail db.sessions location).2
            unique.length
            (if (sources.foldl (realStep env gc avail)
                ⟨[], [], [], [], db.rows⟩).errors.isEmpty then
              "completed" else "completed_with_errors")
        else (create_scraping_session avail db.sessions location).1⟩)

/-- What one source contributes to `all_businesses` in a
`RealBusinessScraper` run: the geocoded validated records when the source
is known, its adapter returned a non-empty list and validation kept
something; nothing otherwise. -/
def realSourceYield (env : String → Except PyErr (List PyBusiness))
    (gc : String → Except PyErr (Option Coords)) (source : String) :
    List PyBusiness :=
  if !realKnownSources.contains source then []
  else
    match env source with
    | .error _ => []
    | .ok sb =>
      if !sb.isEmpty then
        let vb := validate_and_clean_businesses sb
        if !vb.isEmpty then add_geocoding_if_needed gc vb else []
      else []

/-- The records accumulated across all sources of a run, in source order. -/
def realAccumulated (env : String → Except PyErr (List PyBusiness))
    (gc : String → Except PyErr (Option Coords)) (sources : List String) :
    List PyBusiness :=
  sources.foldl (fun acc s => acc ++ realSourceYield env gc s) []

/-! ## Concrete records and environments used by witnesses and
counterexamples -/

/-- A well-formed candidate: name, contact and location present. -/
def bGood : PyBusiness :=
  { business_name := some (some " Acme Ltd "),
    contact := some (some "9876543210"),
    location := some (some "Mumbai") }

/-- What `bGood` looks like after `_validate_and_clean_businesses`. -/
def bGoodCleaned : PyBusiness :=
  { business_name := some (some "Acme Ltd"),
    contact := some (some "9876543210"),
    location := some (some "Mumbai"),
    data_type := some (some "REAL_DATA") }

/-- A candidate with a name and location but no contact, website or
address. -/
def bNoMethods : PyBusiness :=
  { business_name := some (some "NoMethods"),
    location := some (some "Delhi") }

/-- A candidate whose `business_name` key is present but maps to `None`. -/
def bNoneName : PyBusiness := { business_name := some none }

/-- A candidate whose `contact` key is present but maps to `None`. -/
def bNoneContact : PyBusiness :=
  { business_name := some (some "Acme"),
    location := some (some "Mumbai"),
    contact := some none }

/-- A geocoder collaborator that never finds anything and never raises. -/
def geoNone : String → Except PyErr (Option Coords) := fun _ => .ok none

/-! ## C10 — the public validator is not total over `None`-valued fields

`is_valid_business_data` runs `business.get(field, '').strip()`; when the
key is present but maps to `None`, `.get` returns `None` and `.strip()`
raises `AttributeError` instead of the function returning `False`. -/

/-- C10: there are candidate mappings with a required key present but
`None`-valued (`business_name`, or `contact` reached through the lazy
`any(...)`) on which `ScrapingUtils.is_valid_business_data` raises
`AttributeError` rather than returning `False`: the validator is not total
over candidates with `None`-valued fields. -/
theorem c10_validator_raises_on_none_fields :
    is_valid_business_data bNoneName = .error .attributeError ∧
    is_valid_business_data bNoneContact = .error .attributeError := by
  constructor <;> rfl

/-! ## C7 — geocoding fallback: static city table -/

/-- C7 counterexample: the claim says that for EVERY address containing a
recognized city substring the fallback returns THAT city's coordinates.
`"Mumbai Agra Road"` contains the recognized city `"agra"`, but
`_get_default_coordinates` iterates the table in insertion order and
`"mumbai"` matches first, so the result is Mumbai's pair, not Agra's. -/
theorem c7_counterexample :
    pyInStr "agra" (pyLower "Mumbai Agra Road") = true ∧
    city_coordinates[9]? = some ("agra", ⟨27.1767, 78.0081⟩) ∧
    get_default_coordinates "Mumbai Agra Road" = ⟨19.0760, 72.8777⟩ ∧
    (⟨19.0760, 72.8777⟩ : Coords) ≠ ⟨27.1767, 78.0081⟩ := by
  refine ⟨by decide, rfl, rfl, ?_⟩
  intro h
  have h2 := congrArg Coords.longitude h
  simp only at h2
  norm_num at h2

/-- `List.find?` returns the first element satisfying the predicate. -/
theorem find?_first {α : Type} (p : α → Bool) (pre post : List α) (x : α)
    (hpre : ∀ a ∈ pre, p a = false) (hx : p x = true) :
    (pre ++ x :: post).find? p = some x := by
  induction pre with
  | nil => rw [List.nil_append, List.find?_cons_of_pos _ hx]
  | cons a as ih =>
    have ha : p a = false := hpre a (List.mem_cons_self a as)
    rw [List.cons_append, List.find?_cons_of_neg _ (by simp [ha])]
    exact ih (fun b hb => hpre b (List.mem_cons_of_mem a hb))

/-- When both attempts against the geocoding service raise,
`geocode_address` returns the static fallback. -/
theorem geocode_unreachable_default (address : String)
    (resp : Nat → GeoResponse) (hun : unreachable resp = true) :
    geocode_address address resp =
      some (get_default_coordinates address) := by
  have hsplit := (Bool.and_eq_true _ _).mp hun
  have h0 : resp 0 = .timeout ∨ resp 0 = .netError := by
    rcases h : resp 0 <;> rw [h] at hsplit <;>
      simp_all [unreachableOnce]
  have h1 : resp 1 = .timeout ∨ resp 1 = .netError := by
    rcases h : resp 1 <;> rw [h] at hsplit <;>
      simp_all [unreachableOnce]
  rcases h0 with h0 | h0 <;> rcases h1 with h1 | h1 <;>
    simp [geocode_address, h0, h1]

/-- C7 (amended): with the geocoding service unreachable on both attempts,
`geocode_address` deterministically returns the static pair of the FIRST
city in the table's insertion order (delhi, mumbai, bangalore, chennai,
kolkata, hyderabad, pune, ahmedabad, jaipur, agra) that occurs in the
lower-cased address — in particular, of the recognized city itself whenever
it is the only one, or no earlier table entry matches — and the fixed Delhi
reference pair `(28.6139, 77.2090)` when no recognized city occurs.  (The
original claim, which promises the matched city's own pair for every
address containing it, fails on addresses containing two recognized
cities; see the counterexample.) -/
theorem c7_amended_first_city_fallback (address : String)
    (resp : Nat → GeoResponse) (hun : unreachable resp = true) :
    (∀ (pre post : List (String × Coords)) (city : String) (c : Coords),
       city_coordinates = pre ++ (city, c) :: post →
       pyInStr city (pyLower address) = true →
       (∀ p ∈ pre, pyInStr p.1 (pyLower address) = false) →
       geocode_address address resp = some c) ∧
    ((∀ p ∈ city_coordinates, pyInStr p.1 (pyLower address) = false) →
       geocode_address address resp = some ⟨28.6139, 77.2090⟩) := by
  have hdef := geocode_unreachable_default address resp hun
  constructor
  · intro pre post city c htab hcity hpre
    rw [hdef]
    unfold get_default_coordinates
    rw [htab, find?_first (fun p => pyInStr p.1 (pyLower address)) pre post
      (city, c) hpre hcity]
  · intro hnone
    rw [hdef]
    unfold get_default_coordinates
    rw [List.find?_eq_none.mpr (fun p hp => by simp [hnone p hp])]

/-- C7 witness: for `"Navi Mumbai"`, with both attempts timing out, the
fallback is exactly Mumbai's static pair (the only earlier table entry,
delhi, does not occur). -/
theorem c7_amended_first_city_fallback_witness :
    unreachable (fun _ => .timeout) = true ∧
    geocode_address "Navi Mumbai" (fun _ => .timeout) =
      some ⟨19.0760, 72.8777⟩ := by
  refine ⟨by decide, ?_⟩
  exact (c7_amended_first_city_fallback "Navi Mumbai" (fun _ => .timeout)
      (by decide)).1
    [("delhi", ⟨28.6139, 77.2090⟩)]
    [("bangalore", ⟨12.9716, 77.5946⟩), ("chennai", ⟨13.0827, 80.2707⟩),
     ("kolkata", ⟨22.5726, 88.3639⟩), ("hyderabad", ⟨17.3850, 78.4867⟩),
     ("pune", ⟨18.5204, 73.8567⟩), ("ahmedabad", ⟨23.0225, 72.5714⟩),
     ("jaipur", ⟨26.9124, 75.7873⟩), ("agra", ⟨27.1767, 78.0081⟩)]
    "mumbai" ⟨19.0760, 72.8777⟩ rfl (by decide)
    (fun p hp => by rw [List.mem_singleton.mp hp]; decide)

/-! ## C5 — idempotent insert -/

/-- `business.get(k, '')` yields a string (not SQL NULL) exactly when the
key is not present-with-`None`; a missing key defaults to `''`. -/
theorem pyGetStr_some (v : PyField) (h : v ≠ some none) :
    ∃ s, pyGetStr v = some s := by
  match v with
  | none => exact ⟨"", rfl⟩
  | some none => exact absurd rfl h
  | some (some s) => exact ⟨s, rfl⟩

/-- C5 (confirmed): inserting the same Business record twice yields
`stored_count == 0` on the second insert and leaves the table — including
the previously stored row — unchanged (`INSERT OR IGNORE` on the
`UNIQUE(business_name, address, location)` key never overwrites).  The
hypotheses say the record has the canonical Business shape on the three key
attributes: each is a string or absent (absent keys default to `''`), not
an explicit Python `None` — a `None` would become SQL NULL, which the
UNIQUE constraint treats as distinct. -/
theorem c5_idempotent_insert (rows : List DbRow) (b : PyBusiness)
    (h1 : b.business_name ≠ some none) (h2 : b.address ≠ some none)
    (h3 : b.location ≠ some none) :
    (insert_businesses_batch true
      (insert_businesses_batch true rows [b]).1 [b]).2 = 0 ∧
    (insert_businesses_batch true
      (insert_businesses_batch true rows [b]).1 [b]).1 =
      (insert_businesses_batch true rows [b]).1 := by
  obtain ⟨nb, hnb⟩ := pyGetStr_some b.business_name h1
  obtain ⟨ab, hab⟩ := pyGetStr_some b.address h2
  obtain ⟨lb, hlb⟩ := pyGetStr_some b.location h3
  have hr1 : (toRow b).business_name = some nb := hnb
  have hr2 : (toRow b).address = some ab := hab
  have hr3 : (toRow b).location = some lb := hlb
  have hself : rowConflict (toRow b) (toRow b) = true := by
    simp [rowConflict, hr1, hr2, hr3]
  have hbatch : ∀ rs : List DbRow, insert_businesses_batch true rs [b] =
      (let r := insertRowIgnore rs (toRow b); (r.1, r.2)) := by
    intro rs
    simp [insert_businesses_batch]
  rw [hbatch, hbatch]
  by_cases hc : rows.any (fun old => rowConflict old (toRow b)) = true
  · simp [insertRowIgnore, hr1, hr3, hc]
  · simp only [insertRowIgnore, hr1, hr3]
    simp only [Bool.eq_false_iff] at hc
    simp [hc, List.any_append, hself]

/-- C5 witness: a concrete record into an empty table; the second insert
stores nothing and changes nothing. -/
theorem c5_idempotent_insert_witness :
    (insert_businesses_batch true
      (insert_businesses_batch true [] [bGood]).1 [bGood]).2 = 0 ∧
    (insert_businesses_batch true
      (insert_businesses_batch true [] [bGood]).1 [bGood]).1 =
      (insert_businesses_batch true [] [bGood]).1 :=
  c5_idempotent_insert [] bGood (by decide) (by decide) (by decide)

/-! ## C2 — persistence failure does not propagate -/

/-- An adapter environment in which every source returns one record. -/
def envOne : String → Except PyErr (List PyBusiness) := fun _ => .ok [bGood]

/-- C2 counterexample: with the store unavailable (`avail = false`, i.e.
`sqlite3.connect` raising in every `DatabaseManager` method), a run over a
succeeding adapter still completes and returns a full summary
(`total_businesses = 1`, empty `errors`, `session_id = -1`) with the store
untouched — the failure is NOT propagated to the caller, contradicting the
claim.  Every `DatabaseManager` method catches its own exceptions
(`insert_businesses_batch` returns `0`, `create_scraping_session` returns
`-1`, `update_scraping_session` does nothing). -/
theorem c2_counterexample :
    (business_scrape_location envOne geoNone false ⟨[], []⟩ "Delhi" ""
      ["justdial"]).1.total_businesses = 1 ∧
    (business_scrape_location envOne geoNone false ⟨[], []⟩ "Delhi" ""
      ["justdial"]).1.errors = [] ∧
    (business_scrape_location envOne geoNone false ⟨[], []⟩ "Delhi" ""
      ["justdial"]).1.session_id = -1 ∧
    (business_scrape_location envOne geoNone false ⟨[], []⟩ "Delhi" ""
      ["justdial"]).2 = ⟨[], []⟩ :=
  ⟨rfl, rfl, rfl, rfl⟩

/-- With the store unavailable the per-source loop never touches the
`businesses` table. -/
theorem bs_loop_rows_unavail (env : String → Except PyErr (List PyBusiness))
    (geo : String → Except PyErr (Option Coords)) (location category : String)
    (srcs : List String) (st : LoopState) :
    (srcs.foldl (bsStep env geo false location category) st).rows =
      st.rows := by
  induction srcs generalizing st with
  | nil => rfl
  | cons a as ih =>
    rw [List.foldl_cons, ih]
    unfold bsStep
    split
    · rfl
    · simp only [insert_businesses_batch]
      split <;> rfl

/-- C2 (amended): a Persistence Store failure never propagates out of
`scrape_location` and never aborts the run: every `DatabaseManager` method
catches its own exceptions internally, so with the store unavailable the
run still completes and returns a summary, with `session_id = -1` (the
fallback of `create_scraping_session`) and the store left exactly as it
was.  (The original claim — that a store failure is fatal and propagates to
the caller — is refuted by the counterexample.) -/
theorem c2_amended_store_failure_absorbed
    (env : String → Except PyErr (List PyBusiness))
    (geo : String → Except PyErr (Option Coords)) (db : DbState)
    (location category : String) (sources : List String) :
    (business_scrape_location env geo false db location category
      sources).1.session_id = -1 ∧
    (business_scrape_location env geo false db location category
      sources).2 = db := by
  unfold business_scrape_location
  constructor
  · rfl
  · show DbState.mk _ _ = db
    rw [bs_loop_rows_unavail]
    rfl

/-! ## C8 — enrichment and missing coordinates -/

/-- Does the enriched record carry a latitude and a longitude? -/
def recordHasCoords (b : PyBusiness) : Bool :=
  (b.latitude.getD none).isSome && (b.longitude.getD none).isSome

/-- The injected `utils.geocode_address` collaborator with the remote
service unreachable on every attempt. -/
def geoUnreachable : String → Except PyErr (Option Coords) :=
  fun a => .ok (geocode_address a (fun _ => .timeout))

/-- The collaborator when the service always answers 200 with an empty
result list. -/
def geoEmptyAnswer : String → Except PyErr (Option Coords) :=
  fun a => .ok (geocode_address a (fun _ => .emptyData))

/-- A record that has an address. -/
def bAddr : PyBusiness :=
  { business_name := some (some "X"),
    address := some (some "12 Road"),
    location := some (some "Delhi") }

/-- C8 counterexample: enrichment can leave a record without coordinates.
`_add_geocoding` only geocodes records whose `address` is truthy, so a
record without an address passes through untouched even when the fallback
table is available; and for a record WITH an address, a 200 response with
an empty result list makes `geocode_address` return `None` (it `break`s out
and returns `None` without consulting the fallback), so the record again
leaves enrichment with `latitude`/`longitude` absent. -/
theorem c8_counterexample :
    add_geocoding geoUnreachable [bNoMethods] = [bNoMethods] ∧
    recordHasCoords bNoMethods = false ∧
    add_geocoding geoEmptyAnswer [bAddr] = [bAddr] ∧
    recordHasCoords bAddr = false :=
  ⟨rfl, rfl, rfl, rfl⟩

/-- C8 (amended): enrichment cannot fail for records that have an address:
for every record whose `address` is truthy, when the geocoding service is
unreachable (both attempts raise), `_add_geocoding` still equips the record
with coordinates — the city-level pair or the fixed default.  (The original
claim — that NO record leaves enrichment without coordinates — fails for
records without an address and for 200-with-no-result responses; see the
counterexample.) -/
theorem c8_amended_enrichment_total_with_address
    (resp : String → Nat → GeoResponse) (b : PyBusiness)
    (haddr : strTruthy (pyGetOpt b.address) = true)
    (hun : ∀ a, unreachable (resp a) = true) :
    recordHasCoords
      (add_geocoding_one (fun a => .ok (geocode_address a (resp a))) b) =
      true := by
  have ⟨s, hs, hne⟩ : ∃ s, pyGetOpt b.address = some s ∧ s.isEmpty = false := by
    rcases h : pyGetOpt b.address with _ | s
    · rw [h] at haddr; simp [strTruthy] at haddr
    · refine ⟨s, rfl, ?_⟩
      rw [h] at haddr
      simpa [strTruthy] using haddr
  unfold add_geocoding_one
  rw [hs]
  simp only [hne, Bool.false_eq_true, if_false,
    geocode_unreachable_default s (resp s) (hun s)]
  rfl

/-- C8 witness: a concrete record with an address and a service that times
out on both attempts ends up with coordinates. -/
theorem c8_amended_enrichment_total_with_address_witness :
    strTruthy (pyGetOpt bAddr.address) = true ∧
    recordHasCoords (add_geocoding_one geoUnreachable bAddr) = true :=
  ⟨rfl, c8_amended_enrichment_total_with_address (fun _ _ => .timeout) bAddr
    rfl (fun _ => rfl)⟩

/-! ## Dict lemmas for `businesses_by_source` -/

/-- Replacing the value at `k` does not change lookups of other keys. -/
theorem find?_map_replace (d : List (String × Nat)) (k k' : String)
    (v : Nat) (h : k' ≠ k) :
    (d.map (fun p => if p.1 = k then (k, v) else p)).find?
      (fun p => p.1 = k') = d.find? (fun p => p.1 = k') := by
  induction d with
  | nil => rfl
  | cons a as ih =>
    simp only [List.map_cons]
    by_cases ha : a.1 = k
    · rw [if_pos ha]
      rw [List.find?_cons_of_neg _ (by simp [Ne.symm h]),
        List.find?_cons_of_neg _ (by simp [ha, Ne.symm h])]
      exact ih
    · rw [if_neg ha]
      by_cases hk' : a.1 = k'
      · rw [List.find?_cons_of_pos _ (by simp [hk']),
          List.find?_cons_of_pos _ (by simp [hk'])]
      · rw [List.find?_cons_of_neg _ (by simp [hk']),
          List.find?_cons_of_neg _ (by simp [hk'])]
        exact ih

/-- After `d[k] = v` on a dict that already has `k`, looking up `k`
finds `v`. -/
theorem find?_map_replace_self (d : List (String × Nat)) (k : String)
    (v : Nat) (hany : d.any (fun p => p.1 = k) = true) :
    (d.map (fun p => if p.1 = k then (k, v) else p)).find?
      (fun p => p.1 = k) = some (k, v) := by
  induction d with
  | nil => simp at hany
  | cons a as ih =>
    simp only [List.map_cons]
    by_cases ha : a.1 = k
    · rw [if_pos ha, List.find?_cons_of_pos _ (by simp)]
    · rw [if_neg ha, List.find?_cons_of_neg _ (by simp [ha])]
      apply ih
      simpa [List.any_cons, ha] using hany

/-- `d[k] = v` then lookup of `k` yields `v`. -/
theorem dictGet_dictSet_self (d : List (String × Nat)) (k : String)
    (v : Nat) : dictGet (dictSet d k v) k = some v := by
  unfold dictGet dictSet
  by_cases h : d.any (fun p => p.1 = k) = true
  · rw [if_pos h, find?_map_replace_self d k v h]
    rfl
  · rw [if_neg h]
    have hpre : ∀ a ∈ d, (decide (a.1 = k)) = false := by
      intro a ha
      by_contra hc
      exact h (List.any_eq_true.mpr ⟨a, ha, by simpa using hc⟩)
    rw [find?_first _ d [] (k, v) hpre (by simp)]
    rfl

/-- `d[k] = v` does not change lookups of other keys. -/
theorem dictGet_dictSet_other (d : List (String × Nat)) (k k' : String)
    (v : Nat) (h : k' ≠ k) :
    dictGet (dictSet d k v) k' = dictGet d k' := by
  unfold dictGet dictSet
  by_cases hany : d.any (fun p => p.1 = k) = true
  · rw [if_pos hany, find?_map_replace d k k' v h]
  · rw [if_neg hany]
    induction d with
    | nil => simp [List.find?, Ne.symm h]
    | cons a as ih =>
      by_cases hk' : a.1 = k'
      · rw [List.cons_append, List.find?_cons_of_pos _ (by simp [hk']),
          List.find?_cons_of_pos _ (by simp [hk'])]
      · rw [List.cons_append, List.find?_cons_of_neg _ (by simp [hk']),
          List.find?_cons_of_neg _ (by simp [hk'])]
        exact ih (by simp [List.any_cons] at hany; simp [hany.2])

/-! ## C1 — partial failure isolation in `BusinessScraper.scrape_location` -/

/-- An environment in which the justdial adapter raises and the indiamart
adapter returns one record. -/
def envFailJD : String → Except PyErr (List PyBusiness) :=
  fun s => if s = "indiamart" then .ok [bGood] else .error .attributeError

/-- C1 counterexample: a run over two known sources in which exactly one
adapter raises and the other succeeds with a non-empty result does return a
summary without raising, with a positive count for the succeeding source —
but its `errors` list is EMPTY, not non-empty as the claim requires:
`_scrape_from_source` catches the adapter's exception and returns `[]`, so
the failure surfaces only as a zero count. -/
theorem c1_counterexample :
    envFailJD "justdial" = .error .attributeError ∧
    envFailJD "indiamart" = .ok [bGood] ∧
    (business_scrape_location envFailJD geoNone true ⟨[], []⟩ "Mumbai" ""
      ["justdial", "indiamart"]).1.errors = [] ∧
    (business_scrape_location envFailJD geoNone true ⟨[], []⟩ "Mumbai" ""
      ["justdial", "indiamart"]).1.businesses_by_source =
      [("justdial", 0), ("indiamart", 1)] :=
  ⟨rfl, rfl, rfl, rfl⟩

/-- One known-source iteration of the loop: `errors` is untouched and the
source's `businesses_by_source` entry becomes the length of what
`_scrape_from_source` produced (`0` when the adapter raised or returned
nothing — geocoding preserves the length). -/
theorem bsStep_known (env : String → Except PyErr (List PyBusiness))
    (geo : String → Except PyErr (Option Coords)) (avail : Bool)
    (location category : String) (st : LoopState) (a : String)
    (hka : bsKnownSources.contains a = true) :
    (bsStep env geo avail location category st a).errors = st.errors ∧
    (bsStep env geo avail location category st a).by_source =
      dictSet st.by_source a
        (scrape_from_source env location category a).length := by
  unfold bsStep
  simp only [hka, Bool.not_true, Bool.false_eq_true, if_false]
  by_cases hsb : (scrape_from_source env location category a).isEmpty = true
  · have hnil : scrape_from_source env location category a = [] :=
      List.isEmpty_iff.mp hsb
    simp [hsb, hnil]
  · simp only [hsb, Bool.not_false, if_true, Bool.false_eq_true]
    simp [add_geocoding]

/-- The per-source loop over known sources: no errors are recorded, and
each processed source's dict entry is the length of its
`_scrape_from_source` output. -/
theorem bs_loop_known (env : String → Except PyErr (List PyBusiness))
    (geo : String → Except PyErr (Option Coords)) (avail : Bool)
    (location category : String) :
    ∀ (srcs : List String),
    (∀ s ∈ srcs, bsKnownSources.contains s = true) → ∀ (st : LoopState),
    (srcs.foldl (bsStep env geo avail location category) st).errors =
      st.errors ∧
    ∀ (s : String),
      dictGet
        (srcs.foldl (bsStep env geo avail location category) st).by_source
        s =
      if s ∈ srcs then
        some (scrape_from_source env location category s).length
      else dictGet st.by_source s := by
  intro srcs
  induction srcs with
  | nil =>
    intro _ st
    exact ⟨rfl, fun s => by simp⟩
  | cons a as ih =>
    intro hk st
    have hka := hk a (List.mem_cons_self a as)
    have htail : ∀ s ∈ as, bsKnownSources.contains s = true :=
      fun s hs => hk s (List.mem_cons_of_mem a hs)
    obtain ⟨hstep_err, hstep_by⟩ :=
      bsStep_known env geo avail location category st a hka
    obtain ⟨ih_err, ih_by⟩ :=
      ih htail (bsStep env geo avail location category st a)
    rw [List.foldl_cons]
    refine ⟨by rw [ih_err, hstep_err], fun s => ?_⟩
    rw [ih_by s]
    by_cases hs : s ∈ as
    · rw [if_pos hs, if_pos (List.mem_cons_of_mem a hs)]
    · rw [if_neg hs, hstep_by]
      by_cases hsa : s = a
      · subst hsa
        rw [dictGet_dictSet_self, if_pos (List.mem_cons_self s as)]
      · rw [dictGet_dictSet_other _ _ _ _ hsa,
          if_neg (by simp [hsa, hs])]

/-- C1 (amended): for every run of `BusinessScraper.scrape_location` over
known sources, a summary is returned without raising (the function is
total), every succeeding source's `businesses_by_source` entry equals its
adapter's result count (positive whenever the result was non-empty), every
raising adapter's entry is `0` — and the `errors` list remains EMPTY:
adapter failures are absorbed inside `_scrape_from_source` and surface only
as zero counts; `errors` is populated only for unknown source names.  (The
original claim's "non-empty errors list" conjunct is refuted by the
counterexample.) -/
theorem c1_amended_silent_partial_failure
    (env : String → Except PyErr (List PyBusiness))
    (geo : String → Except PyErr (Option Coords)) (avail : Bool)
    (db : DbState) (location category : String) (sources : List String)
    (hk : ∀ s ∈ sources, bsKnownSources.contains s = true) :
    (business_scrape_location env geo avail db location category
      sources).1.errors = [] ∧
    (∀ s ∈ sources, ∀ l, env s = .ok l →
      dictGet (business_scrape_location env geo avail db location category
        sources).1.businesses_by_source s = some l.length) ∧
    (∀ s ∈ sources, ∀ e, env s = .error e →
      dictGet (business_scrape_location env geo avail db location category
        sources).1.businesses_by_source s = some 0) := by
  have hfold := bs_loop_known env geo avail location category sources hk
    ⟨[], [], [], [], db.rows⟩
  have herr : (business_scrape_location env geo avail db location category
      sources).1.errors =
      (sources.foldl (bsStep env geo avail location category)
        ⟨[], [], [], [], db.rows⟩).errors := rfl
  have hby : (business_scrape_location env geo avail db location category
      sources).1.businesses_by_source =
      (sources.foldl (bsStep env geo avail location category)
        ⟨[], [], [], [], db.rows⟩).by_source := rfl
  refine ⟨by rw [herr, hfold.1], fun s hs l hl => ?_, fun s hs e he => ?_⟩
  · rw [hby, hfold.2 s, if_pos hs]
    unfold scrape_from_source
    rw [hl, List.length_map]
  · rw [hby, hfold.2 s, if_pos hs]
    unfold scrape_from_source
    rw [he]
    rfl

/-- C1 witness: the two-source scenario of the counterexample, through the
amended theorem: the succeeding source's entry is `1`, the raising
adapter's entry is `0`, and `errors` is empty. -/
theorem c1_amended_silent_partial_failure_witness :
    (∀ s ∈ ["justdial", "indiamart"],
      bsKnownSources.contains s = true) ∧
    dictGet (business_scrape_location envFailJD geoNone true ⟨[], []⟩
      "Mumbai" "" ["justdial", "indiamart"]).1.businesses_by_source
      "indiamart" = some 1 ∧
    dictGet (business_scrape_location envFailJD geoNone true ⟨[], []⟩
      "Mumbai" "" ["justdial", "indiamart"]).1.businesses_by_source
      "justdial" = some 0 ∧
    (business_scrape_location envFailJD geoNone true ⟨[], []⟩ "Mumbai" ""
      ["justdial", "indiamart"]).1.errors = [] :=
  ⟨by decide,
   (c1_amended_silent_partial_failure envFailJD geoNone true ⟨[], []⟩
     "Mumbai" "" ["justdial", "indiamart"] (by decide)).2.1
     "indiamart" (by decide) [bGood] rfl,
   (c1_amended_silent_partial_failure envFailJD geoNone true ⟨[], []⟩
     "Mumbai" "" ["justdial", "indiamart"] (by decide)).2.2
     "justdial" (by decide) .attributeError rfl,
   (c1_amended_silent_partial_failure envFailJD geoNone true ⟨[], []⟩
     "Mumbai" "" ["justdial", "indiamart"] (by decide)).1⟩

/-! ## C9 — summary count consistency in `BusinessScraper.scrape_location` -/

/-- C9 counterexample: when a source name appears twice in `sources`, the
loop extends `all_businesses` twice but the `businesses_by_source` dict key
is simply overwritten, so `total_businesses` (2) no longer equals the sum
of the dict's values (1). -/
theorem c9_counterexample :
    (business_scrape_location envOne geoNone true ⟨[], []⟩ "Mumbai" ""
      ["justdial", "justdial"]).1.total_businesses = 2 ∧
    ((business_scrape_location envOne geoNone true ⟨[], []⟩ "Mumbai" ""
      ["justdial", "justdial"]).1.businesses_by_source.map Prod.snd).sum =
      1 :=
  ⟨rfl, rfl⟩

/-- What one source contributes to `all_businesses`: its geocoded adapter
output when the name is known, nothing otherwise. -/
def bsSourceYield (env : String → Except PyErr (List PyBusiness))
    (geo : String → Except PyErr (Option Coords))
    (location category s : String) : List PyBusiness :=
  if bsKnownSources.contains s then
    add_geocoding geo (scrape_from_source env location category s)
  else []

/-- An unknown source name only appends an error message. -/
theorem bsStep_unknown (env : String → Except PyErr (List PyBusiness))
    (geo : String → Except PyErr (Option Coords)) (avail : Bool)
    (location category : String) (st : LoopState) (a : String)
    (hka : bsKnownSources.contains a = false) :
    bsStep env geo avail location category st a =
      { st with errors := st.errors ++ ["Unknown scraper source: " ++ a] } := by
  unfold bsStep
  rw [hka]
  rfl

/-- One loop iteration extends `all_businesses` by exactly the source's
yield. -/
theorem bsStep_all (env : String → Except PyErr (List PyBusiness))
    (geo : String → Except PyErr (Option Coords)) (avail : Bool)
    (location category : String) (st : LoopState) (a : String) :
    (bsStep env geo avail location category st a).all =
      st.all ++ bsSourceYield env geo location category a := by
  unfold bsStep bsSourceYield
  by_cases hka : bsKnownSources.contains a = true
  · simp only [hka, Bool.not_true, Bool.false_eq_true, if_false, if_true]
    by_cases hsb : (scrape_from_source env location category a).isEmpty = true
    · have hnil := List.isEmpty_iff.mp hsb
      simp [hsb, hnil, add_geocoding]
    · simp [hsb]
  · have hkaf : bsKnownSources.contains a = false := Bool.eq_false_iff.mpr hka
    rw [hkaf]
    simp

/-- The loop's `all_businesses` is the concatenation of the per-source
yields, in source order (no hypotheses: this also holds with duplicated or
unknown source names). -/
theorem bs_loop_all (env : String → Except PyErr (List PyBusiness))
    (geo : String → Except PyErr (Option Coords)) (avail : Bool)
    (location category : String) :
    ∀ (srcs : List String) (st : LoopState),
    (srcs.foldl (bsStep env geo avail location category) st).all =
      st.all ++ (srcs.map (bsSourceYield env geo location category)).flatten := by
  intro srcs
  induction srcs with
  | nil => intro st; simp
  | cons a as ih =>
    intro st
    rw [List.foldl_cons, ih, bsStep_all]
    simp [List.append_assoc]

/-- The sum of the values of `businesses_by_source`. -/
def sumVals (d : List (String × Nat)) : Nat := (d.map Prod.snd).sum

/-- Setting a key not yet in the dict appends the pair. -/
theorem dictSet_fresh (d : List (String × Nat)) (k : String) (v : Nat)
    (h : d.any (fun p => p.1 = k) = false) :
    dictSet d k v = d ++ [(k, v)] := by
  unfold dictSet
  rw [if_neg (by simp [h])]

/-- The loop's `businesses_by_source` values sum to the total yield length,
provided no source name is processed twice. -/
theorem bs_loop_sum (env : String → Except PyErr (List PyBusiness))
    (geo : String → Except PyErr (Option Coords)) (avail : Bool)
    (location category : String) :
    ∀ (srcs : List String), srcs.Nodup → ∀ (st : LoopState),
    (∀ s ∈ srcs, st.by_source.any (fun p => p.1 = s) = false) →
    sumVals
      (srcs.foldl (bsStep env geo avail location category) st).by_source =
      sumVals st.by_source +
        (srcs.map
          (fun s => (bsSourceYield env geo location category s).length)).sum := by
  intro srcs
  induction srcs with
  | nil => intro _ st _; simp
  | cons a as ih =>
    intro hnd st hfresh
    obtain ⟨hna, hnd2⟩ := List.nodup_cons.mp hnd
    rw [List.foldl_cons]
    by_cases hka : bsKnownSources.contains a = true
    · have hstep := (bsStep_known env geo avail location category st a hka).2
      have hfa : st.by_source.any (fun p => p.1 = a) = false :=
        hfresh a (List.mem_cons_self a as)
      have hset := dictSet_fresh st.by_source a
        (scrape_from_source env location category a).length hfa
      have hfresh2 : ∀ s ∈ as,
          (bsStep env geo avail location category st a).by_source.any
            (fun p => p.1 = s) = false := by
        intro s hs
        have hsa : ¬(a = s) := fun h => hna (h ▸ hs)
        rw [hstep, hset]
        simp [List.any_append, hfresh s (List.mem_cons_of_mem a hs), hsa]
      rw [ih hnd2 _ hfresh2, hstep, hset]
      unfold sumVals
      simp only [List.map_append, List.sum_append, List.map_cons,
        List.sum_cons, List.map_nil, List.sum_nil]
      have hyl : (bsSourceYield env geo location category a).length =
          (scrape_from_source env location category a).length := by
        unfold bsSourceYield
        rw [hka]
        simp [add_geocoding]
      rw [hyl]
      omega
    · have hkaf : bsKnownSources.contains a = false := Bool.eq_false_iff.mpr hka
      rw [bsStep_unknown env geo avail location category st a hkaf]
      rw [ih hnd2
        { st with errors := st.errors ++ ["Unknown scraper source: " ++ a] }
        (fun s hs => hfresh s (List.mem_cons_of_mem a hs))]
      have hyl : (bsSourceYield env geo location category a).length = 0 := by
        unfold bsSourceYield
        rw [hkaf]
        rfl
      simp [hyl]

/-- Unknown source names never get a `businesses_by_source` entry. -/
theorem bs_loop_unknown_absent (env : String → Except PyErr (List PyBusiness))
    (geo : String → Except PyErr (Option Coords)) (avail : Bool)
    (location category : String) :
    ∀ (srcs : List String) (st : LoopState) (s : String),
    bsKnownSources.contains s = false → dictGet st.by_source s = none →
    dictGet (srcs.foldl (bsStep env geo avail location category)
      st).by_source s = none := by
  intro srcs
  induction srcs with
  | nil => intro st s _ hnone; exact hnone
  | cons a as ih =>
    intro st s hks hnone
    rw [List.foldl_cons]
    apply ih _ _ hks
    by_cases hka : bsKnownSources.contains a = true
    · rw [(bsStep_known env geo avail location category st a hka).2]
      have hsa : ¬(s = a) := fun h => by
        rw [h] at hks
        rw [hka] at hks
        cases hks
      rw [dictGet_dictSet_other _ _ _ _ hsa]
      exact hnone
    · rw [bsStep_unknown env geo avail location category st a
        (Bool.eq_false_iff.mpr hka)]
      exact hnone

/-- C9 (amended): in every summary of `BusinessScraper.scrape_location`,
`total_businesses` equals the length of the returned `businesses` list;
and provided no source name appears twice in `sources`, it also equals the
sum of all `businesses_by_source` values (failing or empty sources
contribute 0; unknown source names contribute no entry at all).  (Without
the no-duplicates proviso the sum equality fails — a repeated source is
accumulated twice into `businesses` but its dict entry is overwritten in
place; see the counterexample.) -/
theorem c9_amended_count_consistency
    (env : String → Except PyErr (List PyBusiness))
    (geo : String → Except PyErr (Option Coords)) (avail : Bool)
    (db : DbState) (location category : String) (sources : List String)
    (hnd : sources.Nodup) :
    (business_scrape_location env geo avail db location category
      sources).1.total_businesses =
      (business_scrape_location env geo avail db location category
        sources).1.businesses.length ∧
    (business_scrape_location env geo avail db location category
      sources).1.total_businesses =
      ((business_scrape_location env geo avail db location category
        sources).1.businesses_by_source.map Prod.snd).sum ∧
    (∀ s ∈ sources, bsKnownSources.contains s = false →
      dictGet (business_scrape_location env geo avail db location category
        sources).1.businesses_by_source s = none) := by
  have hall := bs_loop_all env geo avail location category sources
    ⟨[], [], [], [], db.rows⟩
  have hsum := bs_loop_sum env geo avail location category sources hnd
    ⟨[], [], [], [], db.rows⟩ (fun s _ => rfl)
  have htot : (business_scrape_location env geo avail db location category
      sources).1.total_businesses =
      (sources.foldl (bsStep env geo avail location category)
        ⟨[], [], [], [], db.rows⟩).all.length := rfl
  have hby : (business_scrape_location env geo avail db location category
      sources).1.businesses_by_source =
      (sources.foldl (bsStep env geo avail location category)
        ⟨[], [], [], [], db.rows⟩).by_source := rfl
  refine ⟨rfl, ?_, ?_⟩
  · rw [htot, hby, hall]
    have : sumVals (sources.foldl (bsStep env geo avail location category)
        ⟨[], [], [], [], db.rows⟩).by_source =
        ((sources.foldl (bsStep env geo avail location category)
          ⟨[], [], [], [], db.rows⟩).by_source.map Prod.snd).sum := rfl
    rw [← this, hsum]
    simp only [List.nil_append, List.length_flatten, List.map_map, sumVals,
      List.map_nil, List.sum_nil, Nat.zero_add]
    rfl
  · intro s hs hks
    rw [hby]
    exact bs_loop_unknown_absent env geo avail location category sources
      ⟨[], [], [], [], db.rows⟩ s hks rfl

/-- C9 witness: a duplicate-free two-source run in which the counts line
up: total = length of `businesses` = sum of the per-source counts. -/
theorem c9_amended_count_consistency_witness :
    (["justdial", "indiamart"] : List String).Nodup ∧
    (business_scrape_location envOne geoNone true ⟨[], []⟩ "Mumbai" ""
      ["justdial", "indiamart"]).1.total_businesses =
      ((business_scrape_location envOne geoNone true ⟨[], []⟩ "Mumbai" ""
        ["justdial", "indiamart"]).1.businesses_by_source.map
          Prod.snd).sum :=
  ⟨by decide,
   (c9_amended_count_consistency envOne geoNone true ⟨[], []⟩ "Mumbai" ""
     ["justdial", "indiamart"] (by decide)).2.1⟩

/-! ## C4 — deduplication key semantics -/

/-- Name `"a|b"` with location `"c"`. -/
def pPipe1 : PyBusiness :=
  { business_name := some (some "a|b"), location := some (some "c") }

/-- Name `"a"` with location `"b|c"`: a different name, but the same
`f"{name}|{location}|{address[:50]}"` key as `pPipe1`. -/
def pPipe2 : PyBusiness :=
  { business_name := some (some "a"), location := some (some "b|c") }

/-- C4 counterexample: two records with DIFFERENT names (`"a|b"` vs `"a"`,
also different after lower-casing and trimming) are merged by
`_remove_cross_source_duplicates` — the `"|"`-joined key does not separate
the name from the location, so `("a|b", "c")` and `("a", "b|c")` collide
and only the first record is kept, refuting "two records with different
names are never merged, regardless of their addresses". -/
theorem c4_counterexample :
    pyStrip (pyLower "a|b") ≠ pyStrip (pyLower "a") ∧
    remove_cross_source_duplicates [pPipe1, pPipe2] = .ok [pPipe1] := by
  exact ⟨by decide, rfl⟩

/-- Cancelling equal pipe-free prefixes before the first `'|'`. -/
theorem append_pipe_eq_cancel :
    ∀ (a b u v : List Char), '|' ∉ a → '|' ∉ b →
      a ++ '|' :: u = b ++ '|' :: v → a = b := by
  intro a
  induction a with
  | nil =>
    intro b u v _ hb h
    cases b with
    | nil => rfl
    | cons y ys =>
      rw [List.nil_append, List.cons_append] at h
      injection h with h1 h2
      exact absurd (h1 ▸ List.mem_cons_self y ys) hb
  | cons x xs ih =>
    intro b u v ha hb h
    cases b with
    | nil =>
      rw [List.nil_append, List.cons_append] at h
      injection h with h1 h2
      exact absurd (h1 ▸ List.mem_cons_self x xs) ha
    | cons y ys =>
      rw [List.cons_append, List.cons_append] at h
      injection h with h1 h2
      have hxs : '|' ∉ xs := fun hm => ha (List.mem_cons_of_mem x hm)
      have hys : '|' ∉ ys := fun hm => hb (List.mem_cons_of_mem y hm)
      rw [h1, ih ys u v hxs hys h2]

/-- A `false` result of the character-containment check, as membership. -/
theorem strHasChar_false (s : String) (c : Char)
    (h : strHasChar s c = false) : c ∉ s.data := by
  intro hm
  unfold strHasChar at h
  simp_all

/-- Equal dedupe keys with pipe-free names have equal names. -/
theorem key_names_eq (n1 l1 t1 n2 l2 t2 : String)
    (h1 : strHasChar n1 '|' = false) (h2 : strHasChar n2 '|' = false)
    (h : n1 ++ "|" ++ l1 ++ "|" ++ t1 = n2 ++ "|" ++ l2 ++ "|" ++ t2) :
    n1 = n2 := by
  have hd := congrArg String.data h
  simp only [String.data_append, List.append_assoc,
    List.singleton_append] at hd
  exact String.ext (append_pipe_eq_cancel n1.data n2.data _ _
    (strHasChar_false n1 '|' h1) (strHasChar_false n2 '|' h2) hd)

/-- Unfolding one step of the dedupe loop once the record's key is
computed. -/
theorem rcsdAux_cons (b : PyBusiness) (rest : List PyBusiness)
    (seen : List String) (acc : List PyBusiness) (k n : String)
    (hk : dedupeKeyE b = .ok (k, n)) :
    rcsdAux (b :: rest) seen acc =
      if !seen.contains k && !n.isEmpty then
        rcsdAux rest (k :: seen) (acc ++ [b])
      else rcsdAux rest seen acc := by
  rw [rcsdAux, hk]
  rfl

/-- A string that is not `""` is not empty. -/
theorem isEmpty_false_of_ne (s : String) (h : s ≠ "") :
    s.isEmpty = false := by
  rw [Bool.eq_false_iff]
  intro hh
  exact h ((String.isEmpty_iff s).mp hh)

/-- C4 (amended): for records whose name, location and address attributes
are strings (address possibly absent, defaulting to `''`):
(A) if the names agree and are non-empty after lower-casing and trimming,
the locations agree after lower-casing and trimming, and the addresses
agree on the first 50 characters AFTER lower-casing and trimming, then the
two records are treated as duplicates and only the first is kept;
(B) if the names differ after lower-casing and trimming, both non-empty,
and neither normalized name contains the `'|'` key separator, the records
are never merged — both are kept.
(The original claim fails in three ways, all forced by the
`f"{name}|{location}|{address[:50]}"` key: a `'|'` inside a name can make
two different names collide (see the counterexample); the 50-character
prefix is taken after `.lower().strip()`, not on the raw address; and a
record whose name normalizes to the empty string is dropped entirely
rather than kept.) -/
theorem c4_amended_dedup_key (b1 b2 : PyBusiness)
    (n1 n2 l1 l2 a1 a2 : String)
    (hn1 : b1.business_name = some (some n1))
    (hn2 : b2.business_name = some (some n2))
    (hl1 : b1.location = some (some l1))
    (hl2 : b2.location = some (some l2))
    (ha1 : pyGetStr b1.address = some a1)
    (ha2 : pyGetStr b2.address = some a2) :
    (pyStrip (pyLower n1) ≠ "" →
      pyStrip (pyLower n1) = pyStrip (pyLower n2) →
      pyStrip (pyLower l1) = pyStrip (pyLower l2) →
      pyTake 50 (pyStrip (pyLower a1)) = pyTake 50 (pyStrip (pyLower a2)) →
      remove_cross_source_duplicates [b1, b2] = .ok [b1]) ∧
    (pyStrip (pyLower n1) ≠ "" → pyStrip (pyLower n2) ≠ "" →
      pyStrip (pyLower n1) ≠ pyStrip (pyLower n2) →
      strHasChar (pyStrip (pyLower n1)) '|' = false →
      strHasChar (pyStrip (pyLower n2)) '|' = false →
      remove_cross_source_duplicates [b1, b2] = .ok [b1, b2]) := by
  have e1 : pyGetStr b1.business_name = some n1 := by rw [hn1]; rfl
  have e2 : pyGetStr b2.business_name = some n2 := by rw [hn2]; rfl
  have e3 : pyGetStr b1.location = some l1 := by rw [hl1]; rfl
  have e4 : pyGetStr b2.location = some l2 := by rw [hl2]; rfl
  have hk1 : dedupeKeyE b1 = .ok
      (pyStrip (pyLower n1) ++ "|" ++ pyStrip (pyLower l1) ++ "|" ++
        pyTake 50 (pyStrip (pyLower a1)), pyStrip (pyLower n1)) := by
    unfold dedupeKeyE
    rw [e1, e3, ha1]
    rfl
  have hk2 : dedupeKeyE b2 = .ok
      (pyStrip (pyLower n2) ++ "|" ++ pyStrip (pyLower l2) ++ "|" ++
        pyTake 50 (pyStrip (pyLower a2)), pyStrip (pyLower n2)) := by
    unfold dedupeKeyE
    rw [e2, e4, ha2]
    rfl
  constructor
  · intro hne hnn hll htt
    have hkey : pyStrip (pyLower n2) ++ "|" ++ pyStrip (pyLower l2) ++ "|" ++
        pyTake 50 (pyStrip (pyLower a2)) =
        pyStrip (pyLower n1) ++ "|" ++ pyStrip (pyLower l1) ++ "|" ++
        pyTake 50 (pyStrip (pyLower a1)) := by
      rw [hnn, hll, htt]
    have hemp : (pyStrip (pyLower n1)).isEmpty = false :=
      isEmpty_false_of_ne _ hne
    unfold remove_cross_source_duplicates
    rw [rcsdAux_cons _ _ _ _ _ _ hk1, if_pos (by simp [hemp])]
    rw [rcsdAux_cons _ _ _ _ _ _ hk2, if_neg (by simp [hkey])]
    rfl
  · intro hne1 hne2 hdiff hp1 hp2
    have hkey : ¬(pyStrip (pyLower n2) ++ "|" ++ pyStrip (pyLower l2) ++
        "|" ++ pyTake 50 (pyStrip (pyLower a2)) =
        pyStrip (pyLower n1) ++ "|" ++ pyStrip (pyLower l1) ++ "|" ++
        pyTake 50 (pyStrip (pyLower a1))) := by
      intro h
      exact hdiff (key_names_eq _ _ _ _ _ _ hp1 hp2 h.symm)
    have hemp1 : (pyStrip (pyLower n1)).isEmpty = false :=
      isEmpty_false_of_ne _ hne1
    have hemp2 : (pyStrip (pyLower n2)).isEmpty = false :=
      isEmpty_false_of_ne _ hne2
    unfold remove_cross_source_duplicates
    rw [rcsdAux_cons _ _ _ _ _ _ hk1, if_pos (by simp [hemp1])]
    rw [rcsdAux_cons _ _ _ _ _ _ hk2,
      if_pos (by simp [hemp2, List.contains_cons, hkey])]
    rfl

/-- Same business listed with addresses agreeing on the first 50
characters (after normalization), differing beyond. -/
def dDup1 : PyBusiness :=
  { business_name := some (some "Foo"), location := some (some "Mumbai"),
    address :=
      some (some "12 Main Road, Andheri East, Mumbai 400001, Maharashtra XX") }

/-- The same business from another source: name/location differ only in
case and trailing space, address differs from the 51st character on. -/
def dDup2 : PyBusiness :=
  { business_name := some (some "foo "), location := some (some "MUMBAI"),
    address :=
      some (some "12 Main Road, Andheri East, Mumbai 400001, Maharashtra YY") }

/-- Two businesses with different (pipe-free) names in the same city. -/
def dDiff1 : PyBusiness :=
  { business_name := some (some "Alpha"), location := some (some "Delhi") }

/-- See `dDiff1`. -/
def dDiff2 : PyBusiness :=
  { business_name := some (some "Beta"), location := some (some "Delhi") }

/-- C4 witness: the 50-character-prefix pair is merged keeping the first;
the different-name pipe-free pair is kept whole. -/
theorem c4_amended_dedup_key_witness :
    remove_cross_source_duplicates [dDup1, dDup2] = .ok [dDup1] ∧
    remove_cross_source_duplicates [dDiff1, dDiff2] = .ok [dDiff1, dDiff2] :=
  ⟨(c4_amended_dedup_key dDup1 dDup2 "Foo" "foo " "Mumbai" "MUMBAI"
      "12 Main Road, Andheri East, Mumbai 400001, Maharashtra XX"
      "12 Main Road, Andheri East, Mumbai 400001, Maharashtra YY"
      rfl rfl rfl rfl rfl rfl).1
      (by decide) (by decide) (by decide) (by decide),
   (c4_amended_dedup_key dDiff1 dDiff2 "Alpha" "Beta" "Delhi" "Delhi" "" ""
      rfl rfl rfl rfl rfl rfl).2
      (by decide) (by decide) (by decide) (by decide) (by decide)⟩

/-! ## C6 — required-field enforcement by the Normalizer -/

/-- A field that holds (or defaults to) a string whose trimmed form is
non-empty. -/
def fieldStripTruthy (v : PyField) : Bool :=
  match pyGetStr v with
  | none => false
  | some s => !(pyStrip s).isEmpty

/-- The claim's well-formedness of a normalized record: non-empty name and
location, and at least one of contact/website/address present. -/
def recordWellFormed (b : PyBusiness) : Bool :=
  fieldStripTruthy b.business_name && fieldStripTruthy b.location &&
  (fieldStripTruthy b.contact || fieldStripTruthy b.website ||
   fieldStripTruthy b.address)

/-- The candidate lacks a non-empty name: the key is missing or maps to
`None`, the empty string, or whitespace. -/
def lacksName (b : PyBusiness) : Bool :=
  match pyGetStr b.business_name with
  | none => true
  | some s => s.isEmpty || (pyStrip s).isEmpty

/-- A contact-method slot that is missing, `None`, empty or whitespace. -/
def fieldBlank (v : PyField) : Bool :=
  match pyGetStr v with
  | none => true
  | some s => (pyStrip s).isEmpty

/-- The candidate lacks all three of contact, website and address. -/
def lacksAllContactMethods (b : PyBusiness) : Bool :=
  fieldBlank b.contact && fieldBlank b.website && fieldBlank b.address

/-- A truthy-after-strip field is not blank. -/
theorem fieldStripTruthy_not_blank (v : PyField)
    (h : fieldStripTruthy v = true) : fieldBlank v = false := by
  unfold fieldStripTruthy at h
  unfold fieldBlank
  rcases hv : pyGetStr v with _ | s
  · rw [hv] at h
    cases h
  · rw [hv] at h
    simpa using h

/-- A validated record is well-formed. -/
theorem valid_true_wellformed (b : PyBusiness)
    (h : is_valid_business_data b = .ok true) : recordWellFormed b = true := by
  unfold is_valid_business_data at h
  split at h
  · simp at h
  rename_i sn hsn
  split at h
  · simp at h
  rename_i hne
  split at h
  · simp at h
  rename_i sl hsl
  split at h
  · simp at h
  rename_i hle
  split at h
  · simp at h
  rename_i sc hsc
  split at h
  · rename_i hct
    simp [recordWellFormed, fieldStripTruthy, hsn, hsl, hsc, hne, hle, hct]
  rename_i hcf
  split at h
  · simp at h
  rename_i sw hsw
  split at h
  · rename_i hwt
    simp [recordWellFormed, fieldStripTruthy, hsn, hsl, hsw, hne, hle, hwt]
  rename_i hwf
  split at h
  · simp at h
  rename_i sa hsa
  have hat : (pyStrip sa).isEmpty = false := by
    have := Except.ok.inj h
    simpa using this
  simp [recordWellFormed, fieldStripTruthy, hsn, hsl, hsa, hne, hle, hat]

/-- The contact step touches only the `contact` field. -/
theorem cleanContactStep_proj (rc : String) (b : PyBusiness) :
    (cleanContactStep rc b).business_name = b.business_name ∧
    (cleanContactStep rc b).address = b.address ∧
    (cleanContactStep rc b).website = b.website ∧
    (cleanContactStep rc b).location = b.location := by
  unfold cleanContactStep
  dsimp only
  split
  · split
    · exact ⟨rfl, rfl, rfl, rfl⟩
    · split <;> exact ⟨rfl, rfl, rfl, rfl⟩
  · exact ⟨rfl, rfl, rfl, rfl⟩

/-- A blank contact is left alone. -/
theorem cleanContactStep_blank (rc : String) (b : PyBusiness)
    (h : (pyStrip rc).isEmpty = true) : cleanContactStep rc b = b := by
  unfold cleanContactStep
  dsimp only
  rw [if_neg (by simp [h])]

/-- The address step touches only the `address` field. -/
theorem cleanAddressStep_proj (ra : String) (b : PyBusiness) :
    (cleanAddressStep ra b).business_name = b.business_name ∧
    (cleanAddressStep ra b).contact = b.contact ∧
    (cleanAddressStep ra b).website = b.website ∧
    (cleanAddressStep ra b).location = b.location := by
  unfold cleanAddressStep
  dsimp only
  split <;> exact ⟨rfl, rfl, rfl, rfl⟩

/-- A blank address is left alone. -/
theorem cleanAddressStep_blank (ra : String) (b : PyBusiness)
    (h : (pyStrip ra).isEmpty = true) : cleanAddressStep ra b = b := by
  unfold cleanAddressStep
  dsimp only
  rw [if_neg (by simp [h])]

/-- The address after the address step: freshly stored or untouched. -/
theorem cleanAddressStep_addr (ra : String) (b : PyBusiness) :
    (cleanAddressStep ra b).address = some (some (pyStrip ra)) ∨
    (cleanAddressStep ra b).address = b.address := by
  unfold cleanAddressStep
  dsimp only
  split
  · exact Or.inl rfl
  · exact Or.inr rfl

/-- The website step touches only the `website` field. -/
theorem cleanWebsiteStep_proj (ws : String) (b : PyBusiness) :
    (cleanWebsiteStep ws b).business_name = b.business_name ∧
    (cleanWebsiteStep ws b).contact = b.contact ∧
    (cleanWebsiteStep ws b).address = b.address ∧
    (cleanWebsiteStep ws b).location = b.location := by
  unfold cleanWebsiteStep
  dsimp only
  split
  · split <;> exact ⟨rfl, rfl, rfl, rfl⟩
  · exact ⟨rfl, rfl, rfl, rfl⟩

/-- A blank website is left alone. -/
theorem cleanWebsiteStep_blank (ws : String) (b : PyBusiness)
    (h : (pyStrip ws).isEmpty = true) : cleanWebsiteStep ws b = b := by
  unfold cleanWebsiteStep
  dsimp only
  rw [if_neg (by simp [h])]

/-- A successful location backfill only (possibly) rewrites `location`, and
leaves it a string. -/
theorem fillLocationStep_spec (b b5 : PyBusiness)
    (h : fillLocationStep b = .ok b5) :
    b5.business_name = b.business_name ∧ b5.contact = b.contact ∧
    b5.website = b.website ∧ b5.address = b.address ∧
    (∃ t, b5.location = some (some t)) := by
  unfold fillLocationStep at h
  split at h
  · split at h
    · simp at h
    · cases Except.ok.inj h
      exact ⟨rfl, rfl, rfl, rfl, _, rfl⟩
  · rename_i hloc
    cases Except.ok.inj h
    refine ⟨rfl, rfl, rfl, rfl, ?_⟩
    have ht : strTruthy (pyGetOpt b.location) = true := by
      simpa using hloc
    rcases hbl : b.location with _ | lv
    · rw [hbl] at ht
      simp [pyGetOpt, strTruthy] at ht
    · rcases lv with _ | t
      · rw [hbl] at ht
        simp [pyGetOpt, strTruthy] at ht
      · exact ⟨t, rfl⟩

/-- What a successful, record-emitting `validateFinish` says. -/
theorem validateFinish_ok_some (b v : PyBusiness)
    (h : validateFinish b = .ok (some v)) :
    v = b ∧ is_valid_business_data b = .ok true := by
  unfold validateFinish at h
  split at h
  · simp at h
  · rename_i ok hok
    split at h
    · rename_i hT
      exact ⟨(Option.some.inj (Except.ok.inj h)).symm, by rw [hok, hT]⟩
    · simp at h

/-- A string-valued `.get(k, '')` result means the slot is not an explicit
`None`. -/
theorem pyGetStr_ne_some_none (v : PyField) (x : String)
    (h : pyGetStr v = some x) : v ≠ some none := by
  intro hv
  rw [hv] at h
  cases h

/-- A candidate without a usable name is silently dropped (the first
`continue` of the loop). -/
theorem clean_lacksName (b : PyBusiness) (h : lacksName b = true) :
    cleanBusiness b = .ok none := by
  unfold cleanBusiness
  unfold lacksName at h
  rcases hbn : pyGetStr b.business_name with _ | s
  · rfl
  · rw [hbn] at h
    have h' : (s.isEmpty || (pyStrip s).isEmpty) = true := by simpa using h
    by_cases h1 : s.isEmpty = true
    · simp [h1]
    · have h2 : (pyStrip s).isEmpty = true := by
        rw [Bool.eq_false_iff.mpr h1] at h'
        simpa using h'
      simp [h1, h2]

/-- What a record emitted by the tail-from-location stage satisfies. -/
theorem cleanAfterWebsite_spec (b4 v : PyBusiness)
    (h : cleanAfterWebsite b4 = .ok (some v)) :
    is_valid_business_data v = .ok true ∧
    v.business_name = b4.business_name ∧ v.contact = b4.contact ∧
    v.website = b4.website ∧ v.address = b4.address ∧
    v.location ≠ some none := by
  unfold cleanAfterWebsite at h
  split at h
  · simp at h
  rename_i b5 hb5
  obtain ⟨hv, hvalid⟩ := validateFinish_ok_some _ v h
  obtain ⟨f1, f2, f3, f4, t, f5⟩ := fillLocationStep_spec _ _ hb5
  subst hv
  refine ⟨hvalid, f1, f2, f3, f4, ?_⟩
  show b5.location ≠ some none
  rw [f5]
  simp

/-- What a record emitted by the tail-from-website stage satisfies. -/
theorem cleanAfterAddress_spec (b3 v : PyBusiness)
    (h : cleanAfterAddress b3 = .ok (some v)) :
    is_valid_business_data v = .ok true ∧
    v.business_name = b3.business_name ∧ v.contact = b3.contact ∧
    v.address = b3.address ∧ v.location ≠ some none ∧
    (fieldBlank b3.website = true → v.website = b3.website) := by
  unfold cleanAfterAddress at h
  split at h
  · simp at h
  rename_i ws hws
  obtain ⟨hvalid, g1, g2, g3, g4, g5⟩ := cleanAfterWebsite_spec _ v h
  obtain ⟨p1, p2, p3, p4⟩ := cleanWebsiteStep_proj ws b3
  refine ⟨hvalid, by rw [g1, p1], by rw [g2, p2], by rw [g4, p3], g5, ?_⟩
  intro hbl
  have hwse : (pyStrip ws).isEmpty = true := by
    unfold fieldBlank at hbl
    rw [hws] at hbl
    simpa using hbl
  rw [g3, cleanWebsiteStep_blank ws b3 hwse]

/-- What a record emitted by the tail-from-address stage satisfies. -/
theorem cleanAfterContact_spec (b2 v : PyBusiness)
    (h : cleanAfterContact b2 = .ok (some v)) :
    is_valid_business_data v = .ok true ∧
    v.business_name = b2.business_name ∧ v.contact = b2.contact ∧
    v.location ≠ some none ∧ v.address ≠ some none ∧
    (fieldBlank b2.website = true → v.website = b2.website) ∧
    (fieldBlank b2.address = true → v.address = b2.address) := by
  unfold cleanAfterContact at h
  split at h
  · simp at h
  rename_i ra hra
  obtain ⟨hvalid, g1, g2, g3, g4, g5⟩ := cleanAfterAddress_spec _ v h
  obtain ⟨q1, q2, q3, q4⟩ := cleanAddressStep_proj ra b2
  refine ⟨hvalid, by rw [g1, q1], by rw [g2, q2], g4, ?_, ?_, ?_⟩
  · rcases cleanAddressStep_addr ra b2 with haddr | haddr
    · rw [g3, haddr]
      simp
    · rw [g3, haddr]
      exact pyGetStr_ne_some_none _ ra hra
  · intro hbl
    have hbl3 : fieldBlank (cleanAddressStep ra b2).website = true := by
      rw [q3]
      exact hbl
    rw [g5 hbl3, q3]
  · intro hbl
    have hrae : (pyStrip ra).isEmpty = true := by
      unfold fieldBlank at hbl
      rw [hra] at hbl
      simpa using hbl
    rw [g3, cleanAddressStep_blank ra b2 hrae]

/-- What a record emitted by the tail-from-contact stage satisfies. -/
theorem cleanAfterName_spec (b1 v : PyBusiness)
    (h : cleanAfterName b1 = .ok (some v)) :
    is_valid_business_data v = .ok true ∧
    v.business_name = b1.business_name ∧
    v.location ≠ some none ∧ v.address ≠ some none ∧
    (fieldBlank b1.contact = true → v.contact = b1.contact) ∧
    (fieldBlank b1.website = true → v.website = b1.website) ∧
    (fieldBlank b1.address = true → v.address = b1.address) := by
  unfold cleanAfterName at h
  split at h
  · simp at h
  rename_i rc hrc
  obtain ⟨hvalid, g1, g2, g3, g4, g5, g6⟩ := cleanAfterContact_spec _ v h
  obtain ⟨r1, r2, r3, r4⟩ := cleanContactStep_proj rc b1
  refine ⟨hvalid, by rw [g1, r1], g3, g4, ?_, ?_, ?_⟩
  · intro hbl
    have hrce : (pyStrip rc).isEmpty = true := by
      unfold fieldBlank at hbl
      rw [hrc] at hbl
      simpa using hbl
    rw [g2, cleanContactStep_blank rc b1 hrce]
  · intro hbl
    have hbl2 : fieldBlank (cleanContactStep rc b1).website = true := by
      rw [r3]
      exact hbl
    rw [g5 hbl2, r3]
  · intro hbl
    have hbl2 : fieldBlank (cleanContactStep rc b1).address = true := by
      rw [r2]
      exact hbl
    rw [g6 hbl2, r2]

/-- What a record emitted by the whole per-record body satisfies, and the
blank-preservation facts connecting it to its raw candidate. -/
theorem clean_ok_some_spec (a v : PyBusiness)
    (h : cleanBusiness a = .ok (some v)) :
    is_valid_business_data v = .ok true ∧
    (∃ s, v.business_name = some (some s)) ∧
    v.address ≠ some none ∧ v.location ≠ some none ∧
    (fieldBlank a.contact = true → v.contact = a.contact) ∧
    (fieldBlank a.website = true → v.website = a.website) ∧
    (fieldBlank a.address = true → v.address = a.address) := by
  unfold cleanBusiness at h
  split at h
  · simp at h
  rename_i s hs
  split at h
  · simp at h
  split at h
  · simp at h
  obtain ⟨hvalid, g1, g2, g3, g4, g5, g6⟩ := cleanAfterName_spec _ v h
  exact ⟨hvalid, ⟨pyStrip s, g1⟩, g3, g2, g4, g5, g6⟩

/-- A candidate lacking a name, or lacking all three contact methods, is
never emitted by the per-record body. -/
theorem clean_bad_drops (b : PyBusiness)
    (hbad : (lacksName b || lacksAllContactMethods b) = true) :
    ∀ v, cleanBusiness b ≠ .ok (some v) := by
  intro v h
  by_cases hn : lacksName b = true
  · rw [clean_lacksName b hn] at h
    simp at h
  · have hall : lacksAllContactMethods b = true := by
      rw [Bool.eq_false_iff.mpr hn] at hbad
      simpa using hbad
    obtain ⟨hvalid, _, _, _, hc, hw, ha⟩ := clean_ok_some_spec b v h
    have hwf := valid_true_wellformed v hvalid
    unfold lacksAllContactMethods at hall
    simp only [Bool.and_eq_true] at hall
    obtain ⟨⟨hbc, hbw⟩, hba⟩ := hall
    unfold recordWellFormed at hwf
    simp only [Bool.and_eq_true, Bool.or_eq_true] at hwf
    obtain ⟨-, hor⟩ := hwf
    rcases hor with (ht | ht) | ht
    · have := fieldStripTruthy_not_blank _ ht
      rw [hc hbc, hbc] at this
      cases this
    · have := fieldStripTruthy_not_blank _ ht
      rw [hw hbw, hbw] at this
      cases this
    · have := fieldStripTruthy_not_blank _ ht
      rw [ha hba, hba] at this
      cases this

/-- C6 (confirmed): required-field enforcement by
`_validate_and_clean_businesses`.  (1) Every record in the normalizer's
output has a non-empty (after trimming) name and location, and at least one
of contact/website/address present.  (2) A raw candidate lacking a usable
name (key missing, `None`, empty or whitespace), or lacking all three of
contact, website and address (each missing, `None`, empty or whitespace),
contributes nothing to the output of any input list — a silent drop
(dropped candidates either hit a `continue`, fail the final validation, or
raise `AttributeError` into the per-record `except`, which also drops). -/
theorem c6_required_field_enforcement (bs xs ys : List PyBusiness)
    (b : PyBusiness) :
    (∀ v ∈ validate_and_clean_businesses bs, recordWellFormed v = true) ∧
    ((lacksName b || lacksAllContactMethods b) = true →
      validate_and_clean_businesses (xs ++ b :: ys) =
        validate_and_clean_businesses (xs ++ ys)) := by
  constructor
  · intro v hv
    unfold validate_and_clean_businesses at hv
    obtain ⟨a, ha, hfa⟩ := List.mem_filterMap.mp hv
    rcases hca : cleanBusiness a with e | ov
    · rw [hca] at hfa
      simp at hfa
    · rcases ov with _ | v2
      · rw [hca] at hfa
        simp at hfa
      · rw [hca] at hfa
        simp only [Option.some.injEq] at hfa
        subst hfa
        exact valid_true_wellformed v2 (clean_ok_some_spec a v2 hca).1
  · intro hbad
    unfold validate_and_clean_businesses
    rw [List.filterMap_append, List.filterMap_append, List.filterMap_cons]
    have hmid : (match cleanBusiness b with
        | .ok (some v) => some v
        | _ => none) = (none : Option PyBusiness) := by
      rcases hcb : cleanBusiness b with e | ov
      · rfl
      · rcases ov with _ | v
        · rfl
        · exact absurd hcb (clean_bad_drops b hbad v)
    rw [hmid]

/-- C6 witness: a concrete valid candidate survives well-formed, and a
concrete candidate with a name but no contact method vanishes from the
output. -/
theorem c6_required_field_enforcement_witness :
    bGoodCleaned ∈ validate_and_clean_businesses [bGood] ∧
    recordWellFormed bGoodCleaned = true ∧
    (lacksName bNoMethods || lacksAllContactMethods bNoMethods) = true ∧
    validate_and_clean_businesses ([] ++ bNoMethods :: [bGood]) =
      validate_and_clean_businesses ([] ++ [bGood]) :=
  ⟨by decide,
   (c6_required_field_enforcement [bGood] [] [bGood] bNoMethods).1
     bGoodCleaned (by decide),
   by decide,
   (c6_required_field_enforcement [bGood] [] [bGood] bNoMethods).2
     (by decide)⟩

/-! ## C3 — global cross-source deduplication -/

/-- C3 counterexample: `BusinessScraper.scrape_location` applies NO global
dedupe — two sources listing the same business yield a returned
`businesses` list that still contains the duplicate (length 2), and
re-deduplicating it changes it, so the returned list does not reflect the
deduplicated cross-source set. -/
theorem c3_counterexample :
    (business_scrape_location envOne geoNone true ⟨[], []⟩ "Mumbai" ""
      ["justdial", "indiamart"]).1.businesses.length = 2 ∧
    remove_cross_source_duplicates
      (business_scrape_location envOne geoNone true ⟨[], []⟩ "Mumbai" ""
        ["justdial", "indiamart"]).1.businesses =
      .ok [stampBusiness "Mumbai" "" bGood] ∧
    (business_scrape_location envOne geoNone true ⟨[], []⟩ "Mumbai" ""
      ["justdial", "indiamart"]).1.businesses ≠
      [stampBusiness "Mumbai" "" bGood] := by
  exact ⟨rfl, rfl, by decide⟩

/-- The three fields of the dedupe key are strings (or absent), never an
explicit `None`, so computing the key cannot raise. -/
def DedupeSafe (b : PyBusiness) : Prop :=
  b.business_name ≠ some none ∧ b.location ≠ some none ∧
  b.address ≠ some none

/-- The geocoding backfill touches only the coordinate fields. -/
theorem geocode_if_needed_one_proj (gc : String → Except PyErr (Option Coords))
    (b : PyBusiness) :
    (geocode_if_needed_one gc b).business_name = b.business_name ∧
    (geocode_if_needed_one gc b).location = b.location ∧
    (geocode_if_needed_one gc b).address = b.address := by
  unfold geocode_if_needed_one
  dsimp only
  repeat' split
  all_goals exact ⟨rfl, rfl, rfl⟩

/-- `DedupeSafe` survives the geocoding backfill. -/
theorem geocode_if_needed_one_safe (gc : String → Except PyErr (Option Coords))
    (b : PyBusiness) (h : DedupeSafe b) :
    DedupeSafe (geocode_if_needed_one gc b) := by
  obtain ⟨p1, p2, p3⟩ := geocode_if_needed_one_proj gc b
  exact ⟨by rw [p1]; exact h.1, by rw [p2]; exact h.2.1,
    by rw [p3]; exact h.2.2⟩

/-- Each output of the normalizer comes from a successful record clean. -/
theorem mem_validate_and_clean (bs : List PyBusiness) (v : PyBusiness)
    (hv : v ∈ validate_and_clean_businesses bs) :
    ∃ a, cleanBusiness a = .ok (some v) := by
  unfold validate_and_clean_businesses at hv
  obtain ⟨a, ha, hfa⟩ := List.mem_filterMap.mp hv
  rcases hca : cleanBusiness a with e | ov
  · rw [hca] at hfa
    simp at hfa
  · rcases ov with _ | v2
    · rw [hca] at hfa
      simp at hfa
    · rw [hca] at hfa
      simp only [Option.some.injEq] at hfa
      subst hfa
      exact ⟨a, hca⟩

/-- Normalized records are `DedupeSafe`. -/
theorem validated_dedupeSafe (a v : PyBusiness)
    (h : cleanBusiness a = .ok (some v)) : DedupeSafe v := by
  obtain ⟨-, ⟨s, hbn⟩, haddr, hloc, -, -, -⟩ := clean_ok_some_spec a v h
  refine ⟨?_, hloc, haddr⟩
  rw [hbn]
  simp

/-- Everything one source yields is `DedupeSafe`. -/
theorem realSourceYield_safe (env : String → Except PyErr (List PyBusiness))
    (gc : String → Except PyErr (Option Coords)) (s : String)
    (v : PyBusiness) (hv : v ∈ realSourceYield env gc s) : DedupeSafe v := by
  unfold realSourceYield at hv
  split at hv
  · simp at hv
  split at hv
  · simp at hv
  dsimp only at hv
  split at hv
  · split at hv
    · unfold add_geocoding_if_needed at hv
      obtain ⟨w, hw, rfl⟩ := List.mem_map.mp hv
      obtain ⟨a, hca⟩ := mem_validate_and_clean _ w hw
      exact geocode_if_needed_one_safe gc w (validated_dedupeSafe a w hca)
    · simp at hv
  · simp at hv

/-- Folding list-append over an initial accumulator flattens the mapped
yields. -/
theorem foldl_append_flatten {α β : Type} (f : α → List β) :
    ∀ (l : List α) (init : List β),
    l.foldl (fun acc s => acc ++ f s) init = init ++ (l.map f).flatten := by
  intro l
  induction l with
  | nil => intro init; simp
  | cons a as ih =>
    intro init
    rw [List.foldl_cons, ih]
    simp [List.append_assoc]

/-- Every accumulated record of a run is `DedupeSafe`. -/
theorem realAccumulated_safe (env : String → Except PyErr (List PyBusiness))
    (gc : String → Except PyErr (Option Coords)) (sources : List String) :
    ∀ v ∈ realAccumulated env gc sources, DedupeSafe v := by
  intro v hv
  unfold realAccumulated at hv
  rw [foldl_append_flatten] at hv
  simp only [List.nil_append] at hv
  obtain ⟨l, hl, hvl⟩ := List.mem_flatten.mp hv
  obtain ⟨s, hsmem, rfl⟩ := List.mem_map.mp hl
  exact realSourceYield_safe env gc s v hvl

/-- On `DedupeSafe` records the dedupe key computation succeeds. -/
theorem dedupeKeyE_ok_of_safe (b : PyBusiness) (h : DedupeSafe b) :
    ∃ kn, dedupeKeyE b = .ok kn := by
  obtain ⟨h1, h2, h3⟩ := h
  obtain ⟨s1, e1⟩ := pyGetStr_some b.business_name h1
  obtain ⟨s2, e2⟩ := pyGetStr_some b.location h2
  obtain ⟨s3, e3⟩ := pyGetStr_some b.address h3
  refine ⟨(pyStrip (pyLower s1) ++ "|" ++ pyStrip (pyLower s2) ++ "|" ++
    pyTake 50 (pyStrip (pyLower s3)), pyStrip (pyLower s1)), ?_⟩
  unfold dedupeKeyE
  rw [e1, e2, e3]
  rfl

/-- The dedupe loop never raises on a list of `DedupeSafe` records. -/
theorem rcsd_ok_of_safe :
    ∀ (bs : List PyBusiness), (∀ b ∈ bs, DedupeSafe b) →
    ∀ (seen : List String) (acc : List PyBusiness),
    ∃ l, rcsdAux bs seen acc = .ok l := by
  intro bs
  induction bs with
  | nil => intro _ seen acc; exact ⟨acc, rfl⟩
  | cons b rest ih =>
    intro hs seen acc
    obtain ⟨kn, hkn⟩ := dedupeKeyE_ok_of_safe b (hs b (List.mem_cons_self b rest))
    rw [rcsdAux_cons b rest seen acc kn.1 kn.2 (by rw [hkn])]
    split
    · exact ih (fun x hx => hs x (List.mem_cons_of_mem b hx)) _ _
    · exact ih (fun x hx => hs x (List.mem_cons_of_mem b hx)) _ _

/-- One iteration of the real scraper's loop extends `all_businesses` by
the source's yield. -/
theorem realStep_all (env : String → Except PyErr (List PyBusiness))
    (gc : String → Except PyErr (Option Coords)) (avail : Bool)
    (st : LoopState) (a : String) :
    (realStep env gc avail st a).all = st.all ++ realSourceYield env gc a := by
  unfold realStep realSourceYield
  by_cases hka : realKnownSources.contains a = true
  · simp only [hka, Bool.not_true, Bool.false_eq_true, if_false, if_true]
    rcases henv : env a with e | sb
    · simp
    · by_cases hsb : sb.isEmpty = true
      · simp [hsb]
      · by_cases hvb : (validate_and_clean_businesses sb).isEmpty = true
        · simp [hsb, hvb]
        · simp [hsb, hvb]
  · have hkaf : realKnownSources.contains a = false := Bool.eq_false_iff.mpr hka
    rw [hkaf]
    simp

/-- The real scraper's loop accumulates exactly the per-source yields. -/
theorem real_loop_all (env : String → Except PyErr (List PyBusiness))
    (gc : String → Except PyErr (Option Coords)) (avail : Bool) :
    ∀ (srcs : List String) (st : LoopState),
    (srcs.foldl (realStep env gc avail) st).all =
      st.all ++ (srcs.map (realSourceYield env gc)).flatten := by
  intro srcs
  induction srcs with
  | nil => intro st; simp
  | cons a as ih =>
    intro st
    rw [List.foldl_cons, ih, realStep_all]
    simp [List.append_assoc]

/-- C3 (amended): `RealBusinessScraper.scrape_location` applies the global
cross-source dedupe: for every run it returns (without raising) a summary
whose `businesses` list is exactly `_remove_cross_source_duplicates` of the
records accumulated across all sources in source order (first occurrence
kept), with `total_businesses` equal to its length.
`BusinessScraper.scrape_location`, by contrast, performs NO global dedupe —
its returned `businesses` is the raw concatenation (see the
counterexample). -/
theorem c3_amended_real_global_dedupe
    (env : String → Except PyErr (List PyBusiness))
    (gc : String → Except PyErr (Option Coords)) (avail : Bool)
    (db : DbState) (location category : String) (sources : List String) :
    ∃ res db2,
      real_scrape_location env gc avail db location category sources =
        .ok (res, db2) ∧
      remove_cross_source_duplicates (realAccumulated env gc sources) =
        .ok res.businesses ∧
      res.total_businesses = res.businesses.length := by
  have hall : (sources.foldl (realStep env gc avail)
      ⟨[], [], [], [], db.rows⟩).all = realAccumulated env gc sources := by
    rw [real_loop_all]
    unfold realAccumulated
    rw [foldl_append_flatten]
  obtain ⟨l, hl⟩ := rcsd_ok_of_safe (realAccumulated env gc sources)
    (realAccumulated_safe env gc sources) [] []
  have hrw : remove_cross_source_duplicates (realAccumulated env gc sources) =
      .ok l := hl
  unfold real_scrape_location
  rw [hall, hrw]
  exact ⟨_, _, rfl, rfl, rfl⟩

end ClientHunter
